import Mathlib

/-!
The rocket-factory order, inventory and payment services.

A shallow embedding of `order/cmd/main.go`, `inventory/cmd/main.go` and
`payment/cmd/main.go`.

Modelling conventions.

* `float64` prices are elements of an arbitrary carrier `P` with a zero and an
  addition; no algebraic law is assumed of them, so every statement holds for
  IEEE-754 doubles with the left-to-right accumulation of the source.
* `uuid.UUID` is a value type; the two functions of `github.com/google/uuid`
  that the source calls (`UUID.String`, `uuid.Parse`) are a parameter
  (`UuidLib`), together with the library's round-trip guarantee.
* `uuid.New()` is random: the generated identifier is an argument.
* The remote clients are functions from the request to `Except String _`
  (`.error msg` is a non-nil Go `error` whose text is `msg`).
* `map[string]*Order` is a function `String → Option Order`: each key owns its
  own `Order` cell (`CreateOrder` allocates one per key and nothing ever stores
  a pointer under a second key).
* The second return value of every handler is always `nil` and is dropped.
* The `order_v1.*Res` interfaces are one sum type, `order_v1.Res`.
-/

namespace RocketFactory

/-! ## github.com/google/uuid -/

/-- A `uuid.UUID` (a 16-byte array), represented by its 128-bit value. -/
structure UUID where
  val : Nat
deriving DecidableEq, Repr

/-- The functions of `github.com/google/uuid` used by the order service:
`str` is `UUID.String`, `parse` is `uuid.Parse` (`none` is a parse error), and
`parse_str` is the library's guarantee that the canonical form parses back. -/
structure UuidLib where
  str : UUID → String
  parse : String → Option UUID
  parse_str : ∀ u : UUID, parse (str u) = some u

/-! ## shared/pkg/proto/inventory/v1 -/

namespace inventoryv1

/-- The `Category` enumeration of the inventory API. -/
inductive Category where
  | CATEGORY_UNSPECIFIED
  | CATEGORY_ENGINE
  | CATEGORY_FUEL
  | CATEGORY_PORTHOLE
  | CATEGORY_WING
deriving DecidableEq, Repr

/-- The `Manufacturer` message. -/
structure Manufacturer where
  Name : String
  Country : String
  Website : String
deriving DecidableEq, Repr

/-- The `Part` message; `Manufacturer` is a pointer field (`none` is `nil`).
`Dimensions`, `Metadata` and the timestamps are never read and are left out. -/
structure Part (P : Type) where
  Uuid : String
  Name : String
  Description : String
  Price : P
  StockQuantity : Int
  Category : Category
  Manufacturer : Option Manufacturer
  Tags : List String
deriving DecidableEq, Repr

/-- The `PartsFilter` message; an absent repeated field is the empty list. -/
structure PartsFilter where
  Uuids : List String := []
  Names : List String := []
  Categories : List Category := []
  ManufacturerCountries : List String := []
  Tags : List String := []
deriving DecidableEq, Repr

/-- The `ListPartsRequest` message; `Filter` is a pointer field. -/
structure ListPartsRequest where
  Filter : Option PartsFilter
deriving DecidableEq, Repr

/-- The `ListPartsResponse` message. -/
structure ListPartsResponse (P : Type) where
  Parts : List (Part P)
deriving DecidableEq, Repr

end inventoryv1

/-! ## shared/pkg/proto/payment/v1 -/

namespace paymentv1

/-- The `PaymentMethod` enumeration of the payment API. -/
inductive PaymentMethod where
  | PAYMENT_METHOD_UNSPECIFIED
  | PAYMENT_METHOD_CARD
  | PAYMENT_METHOD_SBP
  | PAYMENT_METHOD_CREDIT_CARD
  | PAYMENT_METHOD_INVESTOR_MONEY
deriving DecidableEq, Repr

/-- The `PayOrderRequest` message. -/
structure PayOrderRequest where
  OrderUuid : String
  UserUuid : String
  PaymentMethod : PaymentMethod
deriving DecidableEq, Repr

/-- The `PayOrderResponse` message. -/
structure PayOrderResponse where
  TransactionUuid : String
deriving DecidableEq, Repr

end paymentv1

/-! ## shared/pkg/openapi/order/v1 -/

namespace order_v1

/-- The `OrderStatus` enumeration. -/
inductive OrderStatus where
  | PENDINGPAYMENT
  | PAID
  | CANCELLED
deriving DecidableEq, Repr

/-- The `PaymentMethod` of the order API: the four named constants, and
`other raw` for every other value of the underlying string type (the zero
value is `other ""`). -/
inductive PaymentMethod where
  | CARD
  | SBP
  | CREDITCARD
  | INVESTORMONEY
  | other (raw : String)
deriving DecidableEq, Repr

/-- The `OptPaymentMethod` optional wrapper. -/
structure OptPaymentMethod where
  Value : PaymentMethod
  Set : Bool
deriving DecidableEq, Repr

/-- The `CreateOrderRequest` body. -/
structure CreateOrderRequest where
  UserUUID : UUID
  PartUuids : List UUID
deriving DecidableEq, Repr

/-- The `PayOrderRequest` body. -/
structure PayOrderRequest where
  PaymentMethod : PaymentMethod
deriving DecidableEq, Repr

/-- The `OrderDto` view; `TransactionUUID` is an `OptNilUUID`, which the
handler leaves unset or builds with `NewOptNilUUID`. -/
structure OrderDto (P : Type) where
  OrderUUID : UUID
  UserUUID : UUID
  PartUuids : List UUID
  TotalPrice : P
  TransactionUUID : Option UUID
  PaymentMethod : OptPaymentMethod
  Status : OrderStatus
deriving DecidableEq, Repr

/-- Every response value a handler of the order service can return. -/
inductive Res (P : Type) where
  | CreateOrderResponse (OrderUUID : UUID) (TotalPrice : P)
  | OrderDto (dto : OrderDto P)
  | PayOrderResponse (TransactionUUID : UUID)
  | CancelOrderNoContent
  | BadRequestError (Message : String)
  | NotFoundError (Message : String)
  | ConflictError (Message : String)
  | InternalServerError (Message : String)
deriving DecidableEq, Repr

end order_v1

/-! ## inventory/cmd/main.go -/

/-- The `found` loops of `matchesFilter`: scan `xs` and stop at the first
element satisfying `eq`. -/
def found {α : Type} (eq : α → Bool) : List α → Bool
  | [] => false
  | x :: xs => if eq x then true else found eq xs

/-- The last block of `matchesFilter` (lines 132-151): the tag filter, after
which the function returns `true`. -/
def matchesTags {P : Type} (part : inventoryv1.Part P) (filter : inventoryv1.PartsFilter) :
    Bool :=
  if filter.Tags.length > 0
      ∧ found (fun tag => found (fun partTag => partTag == tag) part.Tags) filter.Tags = false then
    false
  else
    true

/-- The function `matchesFilter`. The result is `none` when the Go code
dereferences a nil `part.Manufacturer`. -/
def matchesFilter {P : Type} (part : inventoryv1.Part P)
    (filter : Option inventoryv1.PartsFilter) : Option Bool :=
  match filter with
  | none => some true
  | some filter =>
    if filter.Uuids.length > 0 ∧ found (fun uuid => part.Uuid == uuid) filter.Uuids = false then
      some false
    else if filter.Names.length > 0 ∧ found (fun name => part.Name == name) filter.Names = false then
      some false
    else if filter.Categories.length > 0
        ∧ found (fun category => part.Category == category) filter.Categories = false then
      some false
    else if filter.ManufacturerCountries.length > 0 then
      match part.Manufacturer with
      | none => none
      | some manufacturer =>
        if found (fun country => manufacturer.Country == country)
            filter.ManufacturerCountries = false then
          some false
        else some (matchesTags part filter)
    else some (matchesTags part filter)

/-- The loop of `ListParts` over the values of `s.parts`, given in the order
the map iteration yields them. -/
def listPartsLoop {P : Type} (filter : Option inventoryv1.PartsFilter) :
    List (inventoryv1.Part P) → Option (List (inventoryv1.Part P))
  | [] => some []
  | part :: rest =>
    match matchesFilter part filter with
    | none => none
    | some true => (listPartsLoop filter rest).map (fun result => part :: result)
    | some false => listPartsLoop filter rest

/-- The handler `inventoryServer.ListParts` over the parts of the catalog;
`none` when the handler panics. -/
def ListParts {P : Type} (parts : List (inventoryv1.Part P))
    (req : inventoryv1.ListPartsRequest) : Option (inventoryv1.ListPartsResponse P) :=
  (listPartsLoop req.Filter parts).map (fun result => { Parts := result })

/-- The inventory client of the order service when it is served by
`ListParts` over `parts`: a handler panic reaches the caller as an error. -/
def inventoryOf {P : Type} (parts : List (inventoryv1.Part P))
    (req : inventoryv1.ListPartsRequest) : Except String (inventoryv1.ListPartsResponse P) :=
  match ListParts parts req with
  | some resp => .ok resp
  | none => .error "rpc error: code = Unavailable"

/-! ## order/cmd/main.go -/

/-- The struct `Order`. -/
structure Order (P : Type) where
  OrderUUID : String
  UserUUID : UUID
  PartUUIDs : List UUID
  TotalPrice : P
  TransactionUUID : Option UUID
  PaymentMethod : order_v1.OptPaymentMethod
  Status : order_v1.OrderStatus
deriving DecidableEq, Repr

/-- The field `orderService.orders`. -/
abbrev Orders (P : Type) := String → Option (Order P)

/-- The map built by `make(map[string]*Order)` in `main`. -/
def emptyOrders (P : Type) : Orders P := fun _ => none

/-- The price loop of `CreateOrder`: `totalPrice += part.Price` from the
accumulator `acc`. -/
def sumPrices {P : Type} [Add P] (acc : P) : List (inventoryv1.Part P) → P
  | [] => acc
  | part :: rest => sumPrices (acc + part.Price) rest

/-- The handler `orderService.CreateOrder`; `newUUID` is the value of
`uuid.New()`. Returns the response and the resulting map. -/
def CreateOrder {P : Type} [Zero P] [Add P] (lib : UuidLib)
    (inventoryClient : inventoryv1.ListPartsRequest →
      Except String (inventoryv1.ListPartsResponse P))
    (newUUID : UUID) (orders : Orders P) (req : order_v1.CreateOrderRequest) :
    order_v1.Res P × Orders P :=
  let partUUIDs := req.PartUuids.map lib.str
  match inventoryClient { Filter := some { Uuids := partUUIDs } } with
  | .error err =>
    (.InternalServerError ("Ошибка при получении деталей: " ++ err), orders)
  | .ok partsResp =>
    if partsResp.Parts.length ≠ req.PartUuids.length then
      (.BadRequestError "Некоторые детали не найдены", orders)
    else
      let totalPrice := sumPrices 0 partsResp.Parts
      let order : Order P :=
        { OrderUUID := lib.str newUUID
          UserUUID := req.UserUUID
          PartUUIDs := req.PartUuids
          TotalPrice := totalPrice
          TransactionUUID := none
          PaymentMethod := { Value := .other "", Set := false }
          Status := .PENDINGPAYMENT }
      (.CreateOrderResponse newUUID totalPrice,
        Function.update orders (lib.str newUUID) (some order))

/-- The handler `orderService.GetOrder`; `none` when `uuid.MustParse` panics
on the stored `OrderUUID`. The map is not written. -/
def GetOrder {P : Type} (lib : UuidLib) (orders : Orders P) (orderUUID : UUID) :
    Option (order_v1.Res P) :=
  match orders (lib.str orderUUID) with
  | none => some (.NotFoundError "Заказ не найден")
  | some order =>
    match lib.parse order.OrderUUID with
    | none => none
    | some parsed =>
      some (.OrderDto
        { OrderUUID := parsed
          UserUUID := order.UserUUID
          PartUuids := order.PartUUIDs
          TotalPrice := order.TotalPrice
          TransactionUUID := order.TransactionUUID
          PaymentMethod := order.PaymentMethod
          Status := order.Status })

/-- The `switch` of `PayOrder` that converts the payment method for gRPC. -/
def toPaymentMethod : order_v1.PaymentMethod → paymentv1.PaymentMethod
  | .CARD => .PAYMENT_METHOD_CARD
  | .SBP => .PAYMENT_METHOD_SBP
  | .CREDITCARD => .PAYMENT_METHOD_CREDIT_CARD
  | .INVESTORMONEY => .PAYMENT_METHOD_INVESTOR_MONEY
  | .other _ => .PAYMENT_METHOD_UNSPECIFIED

/-- The type of `orderService.paymentClient.PayOrder`. -/
abbrev PaymentClient := paymentv1.PayOrderRequest → Except String paymentv1.PayOrderResponse

/-- What one run of `PayOrder` does: the response, the resulting map, and the
requests sent to the payment client, in order. -/
structure PayOutcome (P : Type) where
  res : order_v1.Res P
  orders : Orders P
  calls : List paymentv1.PayOrderRequest

/-- The order written by `PayOrder` after a successful payment. -/
def paidOrder {P : Type} (order : Order P) (req : order_v1.PayOrderRequest)
    (transactionUUID : UUID) : Order P :=
  { order with
    Status := .PAID
    TransactionUUID := some transactionUUID
    PaymentMethod := { Value := req.PaymentMethod, Set := true } }

/-- The handler `orderService.PayOrder`, run without interruption. -/
def PayOrder {P : Type} (lib : UuidLib) (paymentClient : PaymentClient)
    (orders : Orders P) (req : order_v1.PayOrderRequest) (orderUUID : UUID) : PayOutcome P :=
  match orders (lib.str orderUUID) with
  | none => ⟨.NotFoundError "Заказ не найден", orders, []⟩
  | some order =>
    if order.Status ≠ .PENDINGPAYMENT then
      ⟨.InternalServerError "Заказ уже оплачен или отменен", orders, []⟩
    else
      let paymentReq : paymentv1.PayOrderRequest :=
        { OrderUuid := lib.str orderUUID
          UserUuid := lib.str order.UserUUID
          PaymentMethod := toPaymentMethod req.PaymentMethod }
      match paymentClient paymentReq with
      | .error err => ⟨.InternalServerError ("Ошибка при оплате: " ++ err), orders, [paymentReq]⟩
      | .ok paymentResp =>
        match lib.parse paymentResp.TransactionUuid with
        | none =>
          ⟨.InternalServerError "Ошибка при обработке UUID транзакции", orders, [paymentReq]⟩
        | some transactionUUID =>
          ⟨.PayOrderResponse transactionUUID,
            Function.update orders (lib.str orderUUID)
              (some (paidOrder order req transactionUUID)),
            [paymentReq]⟩

/-- The handler `orderService.CancelOrder`; it holds `s.mu` from its first
statement to its return. -/
def CancelOrder {P : Type} (lib : UuidLib) (orders : Orders P) (orderUUID : UUID) :
    order_v1.Res P × Orders P :=
  match orders (lib.str orderUUID) with
  | none => (.NotFoundError "Заказ не найден", orders)
  | some order =>
    if order.Status = .PAID then
      (.ConflictError "Нельзя отменить оплаченный заказ", orders)
    else if order.Status = .CANCELLED then
      (.CancelOrderNoContent, orders)
    else
      (.CancelOrderNoContent,
        Function.update orders (lib.str orderUUID) (some { order with Status := .CANCELLED }))

/-! ## payment/cmd/main.go -/

/-- The handler `paymentServer.PayOrder`; `transactionUUID` is the value of
`uuid.New()`. It never returns an error. -/
def paymentServer.PayOrder (lib : UuidLib) (transactionUUID : UUID) : PaymentClient :=
  fun _ => .ok { TransactionUuid := lib.str transactionUUID }

/-! ## Sequences of calls -/

/-- One complete call of a handler of the order service, with the behaviour
of the remote client it uses and, for `CreateOrder`, the generated id. -/
inductive Call (P : Type) where
  | CreateOrder (inventoryClient : inventoryv1.ListPartsRequest →
      Except String (inventoryv1.ListPartsResponse P))
      (newUUID : UUID) (req : order_v1.CreateOrderRequest)
  | GetOrder (orderUUID : UUID)
  | PayOrder (paymentClient : PaymentClient) (req : order_v1.PayOrderRequest) (orderUUID : UUID)
  | CancelOrder (orderUUID : UUID)

/-- The map after one call. -/
def Call.apply {P : Type} [Zero P] [Add P] (lib : UuidLib) (orders : Orders P) :
    Call P → Orders P
  | .CreateOrder inventoryClient newUUID req =>
    (RocketFactory.CreateOrder lib inventoryClient newUUID orders req).2
  | .GetOrder _ => orders
  | .PayOrder paymentClient req orderUUID =>
    (RocketFactory.PayOrder lib paymentClient orders req orderUUID).orders
  | .CancelOrder orderUUID => (RocketFactory.CancelOrder lib orders orderUUID).2

/-- The map key a call addresses: `params.OrderUUID.String()` in `GetOrder`,
`PayOrder` and `CancelOrder`, `orderUUID.String()` in `CreateOrder`. -/
def Call.key {P : Type} (lib : UuidLib) : Call P → String
  | .CreateOrder _ newUUID _ => lib.str newUUID
  | .GetOrder orderUUID => lib.str orderUUID
  | .PayOrder _ _ orderUUID => lib.str orderUUID
  | .CancelOrder orderUUID => lib.str orderUUID

/-- The map after a sequence of calls on the empty map of `main`. -/
def run {P : Type} [Zero P] [Add P] (lib : UuidLib) (calls : List (Call P)) : Orders P :=
  calls.foldl (Call.apply lib) (emptyOrders P)

/-! ## Interleaved calls

`PayOrder` releases `s.mu` after reading the order and takes it again only for
the final map write, so other handlers can run between its three parts.
`CancelOrder` holds the lock throughout and is one atomic step. -/

/-- Where a running handler stands. -/
inductive Task (P : Type) where
  /-- Handler `PayOrder` before its first statement. -/
  | payStart (paymentClient : PaymentClient) (req : order_v1.PayOrderRequest) (orderUUID : UUID)
  /-- Handler `PayOrder` after the lookup and the status check (lines 176-190). -/
  | payChecked (paymentClient : PaymentClient) (req : order_v1.PayOrderRequest)
      (orderUUID : UUID) (order : Order P)
  /-- Handler `PayOrder` after the payment call and `uuid.Parse` (lines 192-225). -/
  | payCharged (req : order_v1.PayOrderRequest) (orderUUID : UUID) (order : Order P)
      (transactionUUID : UUID)
  /-- Handler `CancelOrder` before its first statement. -/
  | cancelStart (orderUUID : UUID)
  /-- A handler that has returned `res`. -/
  | done (res : order_v1.Res P)

/-- The next part of a handler on the shared map. -/
def Task.step {P : Type} (lib : UuidLib) (orders : Orders P) : Task P → Task P × Orders P
  | .payStart paymentClient req orderUUID =>
    match orders (lib.str orderUUID) with
    | none => (.done (.NotFoundError "Заказ не найден"), orders)
    | some order =>
      if order.Status ≠ .PENDINGPAYMENT then
        (.done (.InternalServerError "Заказ уже оплачен или отменен"), orders)
      else (.payChecked paymentClient req orderUUID order, orders)
  | .payChecked paymentClient req orderUUID order =>
    match paymentClient
        { OrderUuid := lib.str orderUUID
          UserUuid := lib.str order.UserUUID
          PaymentMethod := toPaymentMethod req.PaymentMethod } with
    | .error err => (.done (.InternalServerError ("Ошибка при оплате: " ++ err)), orders)
    | .ok paymentResp =>
      match lib.parse paymentResp.TransactionUuid with
      | none => (.done (.InternalServerError "Ошибка при обработке UUID транзакции"), orders)
      | some transactionUUID => (.payCharged req orderUUID order transactionUUID, orders)
  | .payCharged req orderUUID order transactionUUID =>
    (.done (.PayOrderResponse transactionUUID),
      Function.update orders (lib.str orderUUID) (some (paidOrder order req transactionUUID)))
  | .cancelStart orderUUID =>
    (.done (RocketFactory.CancelOrder lib orders orderUUID).1,
      (RocketFactory.CancelOrder lib orders orderUUID).2)
  | .done res => (.done res, orders)

/-- The shared map and the handlers running on it. -/
structure System (P : Type) where
  orders : Orders P
  tasks : List (Task P)

/-- Let handler number `i` run its next part. -/
def System.step {P : Type} (lib : UuidLib) (sys : System P) (i : Nat) : System P :=
  match sys.tasks.get? i with
  | none => sys
  | some task =>
    { orders := (task.step lib sys.orders).2
      tasks := sys.tasks.set i (task.step lib sys.orders).1 }

/-- Run the handlers in the order given by `schedule`. -/
def System.exec {P : Type} (lib : UuidLib) (sys : System P) (schedule : List Nat) : System P :=
  schedule.foldl (System.step lib) sys

/-- The response handler number `i` has returned, if it has returned. -/
def System.result {P : Type} (sys : System P) (i : Nat) : Option (order_v1.Res P) :=
  match sys.tasks.get? i with
  | some (.done res) => some res
  | _ => none

/-- The transitions to `PAID` performed along a schedule: one entry, the
recorded transaction id, for every execution of the final write of `PayOrder`. -/
def System.paidWrites {P : Type} (lib : UuidLib) : System P → List Nat → List UUID
  | _, [] => []
  | sys, i :: schedule =>
    match sys.tasks.get? i with
    | some (.payCharged _ _ _ transactionUUID) =>
      transactionUUID :: System.paidWrites lib (sys.step lib i) schedule
    | _ => System.paidWrites lib (sys.step lib i) schedule

/-! ## The state invariant -/

/-- What `CreateOrder`, `PayOrder` and `CancelOrder` keep true of a stored
order: it is `PAID` exactly when it has a transaction id, and it has a
transaction id exactly when its payment method is set. -/
def Order.WellFormed {P : Type} (order : Order P) : Prop :=
  (order.Status = .PAID ↔ order.TransactionUUID.isSome = true)
    ∧ order.TransactionUUID.isSome = order.PaymentMethod.Set

/-- Every stored order is well formed. -/
def Orders.WellFormed {P : Type} (orders : Orders P) : Prop :=
  ∀ (key : String) (order : Order P), orders key = some order → order.WellFormed

/-- Every stored order carries, in `OrderUUID`, the key it is stored under. -/
def Orders.Keyed {P : Type} (orders : Orders P) : Prop :=
  ∀ (key : String) (order : Order P), orders key = some order → order.OrderUUID = key

/-! ## A uuid library for examples -/

/-- A small instance of `UuidLib`: the uuid with value `n` is written as `n`
letters `f`; strings with any other character do not parse. -/
def unaryUuid : UuidLib where
  str u := String.mk (List.replicate u.val 'f')
  parse s := if s.data.all (fun c => c == 'f') then some ⟨s.data.length⟩ else none
  parse_str u := by simp

/-! ## Examples used by the concrete statements -/

/-- The first part of `initTestData`, with the price as a whole number. -/
def engine001 : inventoryv1.Part Nat :=
  { Uuid := "engine-001", Name := "Главный двигатель Falcon 9"
    Description := "Многоразовый ракетный двигатель", Price := 2500000, StockQuantity := 5
    Category := .CATEGORY_ENGINE
    Manufacturer := some { Name := "SpaceX", Country := "USA", Website := "https://www.spacex.com" }
    Tags := ["двигатель", "многоразовый", "космос"] }

/-- The second part of `initTestData`, with the price as a whole number. -/
def fuel001 : inventoryv1.Part Nat :=
  { Uuid := "fuel-001", Name := "Топливный бак LOX"
    Description := "Бак для жидкого кислорода", Price := 1800000, StockQuantity := 8
    Category := .CATEGORY_FUEL
    Manufacturer := some { Name := "Roscosmos", Country := "Russia", Website := "https://www.roscosmos.ru" }
    Tags := ["топливо", "бак", "кислород"] }

/-- An order in status `status` stored under the uuid with value `n`, owned by
user 1, with no parts, no transaction and no payment method. -/
def sampleOrder (n : Nat) (status : order_v1.OrderStatus) : Order Nat :=
  { OrderUUID := unaryUuid.str ⟨n⟩, UserUUID := ⟨1⟩, PartUUIDs := [], TotalPrice := 0
    TransactionUUID := none, PaymentMethod := { Value := .other "", Set := false }
    Status := status }

/-- The map after creating orders 2 and 3 (both without parts, for user 1),
paying order 2 by SBP with transaction 5 and cancelling order 3. -/
def paidThenCancelled : Orders Nat :=
  run unaryUuid
    [ .CreateOrder (fun _ => .ok { Parts := [] }) ⟨2⟩ { UserUUID := ⟨1⟩, PartUuids := [] },
      .CreateOrder (fun _ => .ok { Parts := [] }) ⟨3⟩ { UserUUID := ⟨1⟩, PartUuids := [] },
      .PayOrder (paymentServer.PayOrder unaryUuid ⟨5⟩) ⟨.SBP⟩ ⟨2⟩,
      .CancelOrder ⟨3⟩ ]

/-- Two `PayOrder` calls on the freshly created order 2, by card and by SBP;
the payment service answers the first with transaction 5 and the second with
transaction 6. -/
def racingPayments : System Nat :=
  { orders :=
      run unaryUuid
        [.CreateOrder (fun _ => .ok { Parts := [] }) ⟨2⟩ { UserUUID := ⟨1⟩, PartUuids := [] }]
    tasks :=
      [ .payStart (paymentServer.PayOrder unaryUuid ⟨5⟩) ⟨.CARD⟩ ⟨2⟩,
        .payStart (paymentServer.PayOrder unaryUuid ⟨6⟩) ⟨.SBP⟩ ⟨2⟩ ] }

/-- One `PayOrder` call (by card, the payment service answers transaction 5)
and one `CancelOrder` call on the freshly created order 2. -/
def payAgainstCancel : System Nat :=
  { orders :=
      run unaryUuid
        [.CreateOrder (fun _ => .ok { Parts := [] }) ⟨2⟩ { UserUUID := ⟨1⟩, PartUuids := [] }]
    tasks := [.payStart (paymentServer.PayOrder unaryUuid ⟨5⟩) ⟨.CARD⟩ ⟨2⟩, .cancelStart ⟨2⟩] }

/-! ## Lemmas -/

/-- The price loop is the left fold of `+` over the prices. -/
theorem sumPrices_eq_foldl {P : Type} [Add P] (parts : List (inventoryv1.Part P)) (acc : P) :
    sumPrices acc parts = (parts.map (fun part => part.Price)).foldl (fun a b => a + b) acc := by
  induction parts generalizing acc with
  | nil => rfl
  | cons part rest ih => simp [sumPrices, ih]

/-- The status guard of `PayOrder`: an order that is not `PENDING_PAYMENT` is
answered before any call to the payment client and without a write. -/
theorem PayOrder_of_not_pending {P : Type} (lib : UuidLib) (paymentClient : PaymentClient)
    (orders : Orders P) (req : order_v1.PayOrderRequest) (orderUUID : UUID) (order : Order P)
    (horder : orders (lib.str orderUUID) = some order)
    (hstatus : order.Status ≠ .PENDINGPAYMENT) :
    PayOrder lib paymentClient orders req orderUUID
      = ⟨.InternalServerError "Заказ уже оплачен или отменен", orders, []⟩ := by
  simp [PayOrder, horder, hstatus]

/-- Storing a well-formed order keeps the map well formed. -/
theorem Orders.WellFormed.update {P : Type} {orders : Orders P} (h : orders.WellFormed)
    (key : String) (order : Order P) (horder : order.WellFormed) :
    Orders.WellFormed (Function.update orders key (some order)) := by
  intro key2 order2 h2
  by_cases hk : key2 = key
  · subst hk
    simp at h2
    subst h2
    exact horder
  · rw [Function.update_noteq hk] at h2
    exact h key2 order2 h2

/-- The handler `CreateOrder` keeps the map well formed. -/
theorem CreateOrder_wellFormed {P : Type} [Zero P] [Add P] (lib : UuidLib)
    (inventoryClient : inventoryv1.ListPartsRequest →
      Except String (inventoryv1.ListPartsResponse P))
    (newUUID : UUID) (orders : Orders P) (req : order_v1.CreateOrderRequest)
    (h : orders.WellFormed) :
    Orders.WellFormed (CreateOrder lib inventoryClient newUUID orders req).2 := by
  unfold CreateOrder
  dsimp only
  split
  · exact h
  · split
    · exact h
    · exact h.update _ _ (by simp [Order.WellFormed])

/-- The handler `PayOrder` keeps the map well formed. -/
theorem PayOrder_wellFormed {P : Type} (lib : UuidLib) (paymentClient : PaymentClient)
    (orders : Orders P) (req : order_v1.PayOrderRequest) (orderUUID : UUID)
    (h : orders.WellFormed) :
    Orders.WellFormed (PayOrder lib paymentClient orders req orderUUID).orders := by
  unfold PayOrder
  split
  · exact h
  · split
    · exact h
    · dsimp only
      split
      · exact h
      · split
        · exact h
        · exact h.update _ _ (by simp [Order.WellFormed, paidOrder])

/-- The handler `CancelOrder` keeps the map well formed. -/
theorem CancelOrder_wellFormed {P : Type} (lib : UuidLib) (orders : Orders P)
    (orderUUID : UUID) (h : orders.WellFormed) :
    Orders.WellFormed (CancelOrder lib orders orderUUID).2 := by
  unfold CancelOrder
  split
  · exact h
  · rename_i order horder
    split
    · exact h
    · rename_i hpaid
      split
      · exact h
      · have hw := h _ _ horder
        refine h.update _ _ ?_
        have hnone : order.TransactionUUID.isSome = false := by
          cases hs : order.TransactionUUID.isSome with
          | false => rfl
          | true => exact absurd (hw.1.2 hs) hpaid
        refine ⟨?_, ?_⟩
        · simp [hnone]
        · simpa using hw.2

/-- Every call keeps the map well formed. -/
theorem Call.apply_wellFormed {P : Type} [Zero P] [Add P] (lib : UuidLib) (orders : Orders P)
    (call : Call P) (h : orders.WellFormed) : Orders.WellFormed (call.apply lib orders) := by
  cases call with
  | CreateOrder inventoryClient newUUID req => exact CreateOrder_wellFormed _ _ _ _ _ h
  | GetOrder orderUUID => exact h
  | PayOrder paymentClient req orderUUID => exact PayOrder_wellFormed _ _ _ _ _ h
  | CancelOrder orderUUID => exact CancelOrder_wellFormed _ _ _ h

/-- A sequence of calls keeps the map well formed. -/
theorem foldl_wellFormed {P : Type} [Zero P] [Add P] (lib : UuidLib) (calls : List (Call P))
    (orders : Orders P) (h : orders.WellFormed) :
    Orders.WellFormed (calls.foldl (Call.apply lib) orders) := by
  induction calls generalizing orders with
  | nil => exact h
  | cons call rest ih => exact ih _ (Call.apply_wellFormed lib orders call h)

/-- Every map reached from the empty map is well formed. -/
theorem run_wellFormed {P : Type} [Zero P] [Add P] (lib : UuidLib) (calls : List (Call P)) :
    Orders.WellFormed (run lib calls) :=
  foldl_wellFormed lib calls _ (fun _ _ h => by simp [emptyOrders] at h)

/-- The handler `CreateOrder` writes only under the generated id. -/
theorem CreateOrder_orders_other {P : Type} [Zero P] [Add P] (lib : UuidLib)
    (inventoryClient : inventoryv1.ListPartsRequest →
      Except String (inventoryv1.ListPartsResponse P))
    (newUUID : UUID) (orders : Orders P) (req : order_v1.CreateOrderRequest) (key : String)
    (hkey : key ≠ lib.str newUUID) :
    (CreateOrder lib inventoryClient newUUID orders req).2 key = orders key := by
  unfold CreateOrder
  dsimp only
  split
  · rfl
  · split
    · rfl
    · exact Function.update_noteq hkey _ _

/-- The handler `PayOrder` writes only under the id it is called with. -/
theorem PayOrder_orders_other {P : Type} (lib : UuidLib) (paymentClient : PaymentClient)
    (orders : Orders P) (req : order_v1.PayOrderRequest) (orderUUID : UUID) (key : String)
    (hkey : key ≠ lib.str orderUUID) :
    (PayOrder lib paymentClient orders req orderUUID).orders key = orders key := by
  unfold PayOrder
  split
  · rfl
  · split
    · rfl
    · dsimp only
      split
      · rfl
      · split
        · rfl
        · exact Function.update_noteq hkey _ _

/-- The handler `CancelOrder` writes only under the id it is called with. -/
theorem CancelOrder_orders_other {P : Type} (lib : UuidLib) (orders : Orders P)
    (orderUUID : UUID) (key : String) (hkey : key ≠ lib.str orderUUID) :
    (CancelOrder lib orders orderUUID).2 key = orders key := by
  unfold CancelOrder
  split
  · rfl
  · split
    · rfl
    · split
      · rfl
      · exact Function.update_noteq hkey _ _

/-- The handler `CancelOrder` writes nothing when the order is `PAID` or
`CANCELLED`. -/
theorem CancelOrder_of_not_pending {P : Type} (lib : UuidLib) (orders : Orders P)
    (orderUUID : UUID) (order : Order P) (horder : orders (lib.str orderUUID) = some order)
    (hstatus : order.Status ≠ .PENDINGPAYMENT) :
    (CancelOrder lib orders orderUUID).2 = orders := by
  cases hs : order.Status with
  | PENDINGPAYMENT => exact absurd hs hstatus
  | PAID => simp [CancelOrder, horder, hs]
  | CANCELLED => simp [CancelOrder, horder, hs]

/-- No call changes a stored order that is not `PENDING_PAYMENT`, provided a
`CreateOrder` call generates an id that is not in the map. -/
theorem Call.apply_of_not_pending {P : Type} [Zero P] [Add P] (lib : UuidLib)
    (orders : Orders P) (call : Call P) (key : String) (order : Order P)
    (hfresh : ∀ inventoryClient newUUID req,
      call = .CreateOrder inventoryClient newUUID req → orders (lib.str newUUID) = none)
    (horder : orders key = some order) (hstatus : order.Status ≠ .PENDINGPAYMENT) :
    call.apply lib orders key = some order := by
  cases call with
  | CreateOrder inventoryClient newUUID req =>
    have hnone := hfresh inventoryClient newUUID req rfl
    have hkey : key ≠ lib.str newUUID := by
      intro h
      rw [h, hnone] at horder
      cases horder
    simp only [Call.apply]
    rw [CreateOrder_orders_other _ _ _ _ _ _ hkey, horder]
  | GetOrder orderUUID => exact horder
  | PayOrder paymentClient req orderUUID =>
    simp only [Call.apply]
    by_cases hkey : key = lib.str orderUUID
    · subst hkey
      rw [PayOrder_of_not_pending _ _ _ _ _ _ horder hstatus]
      exact horder
    · rw [PayOrder_orders_other _ _ _ _ _ _ hkey, horder]
  | CancelOrder orderUUID =>
    simp only [Call.apply]
    by_cases hkey : key = lib.str orderUUID
    · subst hkey
      rw [CancelOrder_of_not_pending _ _ _ _ horder hstatus]
      exact horder
    · rw [CancelOrder_orders_other _ _ _ _ hkey, horder]

/-- The scan finds an element exactly when one satisfies the test. -/
theorem found_eq_true_iff {α : Type} (eq : α → Bool) (xs : List α) :
    found eq xs = true ↔ ∃ x ∈ xs, eq x = true := by
  induction xs with
  | nil => simp [found]
  | cons x xs ih =>
    by_cases hx : eq x = true
    · simp [found, hx]
    · simp [found, hx, ih]

/-- The scan fails exactly when no element satisfies the test. -/
theorem found_eq_false_iff {α : Type} (eq : α → Bool) (xs : List α) :
    found eq xs = false ↔ ∀ x ∈ xs, eq x = false := by
  rw [← Bool.not_eq_true, found_eq_true_iff]
  simp

/-- With only `Uuids` set in the filter, `matchesFilter` never fails and
answers whether the list is empty or contains the uuid of the part. -/
theorem matchesFilter_uuids {P : Type} (part : inventoryv1.Part P) (ids : List String) :
    matchesFilter part (some { Uuids := ids })
      = some (decide (ids = [] ∨ part.Uuid ∈ ids)) := by
  by_cases hmem : part.Uuid ∈ ids
  · have hfound : found (fun uuid => part.Uuid == uuid) ids = true := by
      rw [found_eq_true_iff]
      exact ⟨part.Uuid, hmem, by simp⟩
    simp [matchesFilter, matchesTags, hfound, hmem]
  · have hfound : found (fun uuid => part.Uuid == uuid) ids = false := by
      rw [found_eq_false_iff]
      intro x hx
      simp only [beq_eq_false_iff_ne]
      intro h
      exact hmem (h ▸ hx)
    cases ids with
    | nil => simp [matchesFilter, matchesTags]
    | cons id rest => simp [matchesFilter, hfound, hmem]

/-- With only `Uuids` set in the filter, the loop of `ListParts` keeps the
parts whose uuid is in the list, or all parts when the list is empty. -/
theorem listPartsLoop_uuids {P : Type} (ids : List String) (parts : List (inventoryv1.Part P)) :
    listPartsLoop (some { Uuids := ids }) parts
      = some (parts.filter (fun part => decide (ids = [] ∨ part.Uuid ∈ ids))) := by
  induction parts with
  | nil => rfl
  | cons part rest ih =>
    by_cases h : ids = [] ∨ part.Uuid ∈ ids
    · simp [listPartsLoop, matchesFilter_uuids, ih, h]
    · simp [listPartsLoop, matchesFilter_uuids, ih, h]

/-- The answer the order service gets from `ListParts` for a filter with only
`Uuids` set. -/
theorem inventoryOf_uuids {P : Type} (ids : List String) (parts : List (inventoryv1.Part P)) :
    inventoryOf parts { Filter := some { Uuids := ids } }
      = .ok { Parts := parts.filter (fun part => decide (ids = [] ∨ part.Uuid ∈ ids)) } := by
  simp [inventoryOf, ListParts, listPartsLoop_uuids]

/-- The parts `ListParts` returns for a list of ids one of which is in no part
of a catalog with distinct uuids are fewer than the ids. -/
theorem filter_length_lt_of_missing {P : Type} (ids : List String)
    (parts : List (inventoryv1.Part P))
    (hnodup : (parts.map (fun part => part.Uuid)).Nodup)
    (missing : String) (hmem : missing ∈ ids) (hmissing : ∀ part ∈ parts, part.Uuid ≠ missing) :
    (parts.filter (fun part => decide (ids = [] ∨ part.Uuid ∈ ids))).length < ids.length := by
  have hne : ids ≠ [] := List.ne_nil_of_mem hmem
  have hsub : List.Sublist
      ((parts.filter (fun part => decide (ids = [] ∨ part.Uuid ∈ ids))).map
        (fun part => part.Uuid))
      (parts.map (fun part => part.Uuid)) :=
    (List.filter_sublist parts).map _
  have hnd : (missing :: (parts.filter (fun part => decide (ids = [] ∨ part.Uuid ∈ ids))).map
      (fun part => part.Uuid)).Nodup := by
    refine List.nodup_cons.mpr ⟨?_, hnodup.sublist hsub⟩
    intro h
    obtain ⟨part, hpart, hEq⟩ := List.mem_map.mp h
    exact hmissing part (List.mem_of_mem_filter hpart) hEq
  have hsubset : (missing :: (parts.filter
      (fun part => decide (ids = [] ∨ part.Uuid ∈ ids))).map (fun part => part.Uuid)) ⊆ ids := by
    intro x hx
    rcases List.mem_cons.mp hx with rfl | hx
    · exact hmem
    · obtain ⟨part, hpart, rfl⟩ := List.mem_map.mp hx
      have := (List.mem_filter.mp hpart).2
      simpa [hne] using this
  have hle := (hnd.subperm hsubset).length_le
  simp only [List.length_cons, List.length_map] at hle
  omega

/-- The three parts of `PayOrder`, run one after the other with nothing in
between, are the handler `PayOrder`. -/
theorem Task.step_pay_uninterrupted {P : Type} (lib : UuidLib) (paymentClient : PaymentClient)
    (orders : Orders P) (req : order_v1.PayOrderRequest) (orderUUID : UUID) :
    (System.exec lib { orders := orders, tasks := [.payStart paymentClient req orderUUID] }
        [0, 0, 0]).result 0 = some (PayOrder lib paymentClient orders req orderUUID).res
      ∧ (System.exec lib { orders := orders, tasks := [.payStart paymentClient req orderUUID] }
        [0, 0, 0]).orders = (PayOrder lib paymentClient orders req orderUUID).orders := by
  unfold PayOrder
  cases horder : orders (lib.str orderUUID) with
  | none => simp [System.exec, System.step, Task.step, System.result, horder]
  | some order =>
    by_cases hstatus : order.Status = .PENDINGPAYMENT
    · cases hpay : paymentClient
          { OrderUuid := lib.str orderUUID
            UserUuid := lib.str order.UserUUID
            PaymentMethod := toPaymentMethod req.PaymentMethod } with
      | error err =>
        simp [System.exec, System.step, Task.step, System.result, horder, hstatus, hpay]
      | ok paymentResp =>
        cases hparse : lib.parse paymentResp.TransactionUuid with
        | none =>
          simp [System.exec, System.step, Task.step, System.result, horder, hstatus, hpay,
            hparse]
        | some transactionUUID =>
          simp [System.exec, System.step, Task.step, System.result, horder, hstatus, hpay,
            hparse]
    · simp [System.exec, System.step, Task.step, System.result, horder, hstatus]

/-- What `PayOrder` leaves under the id it is called with: the order as it
was, or that order marked paid. -/
theorem PayOrder_orders_target {P : Type} (lib : UuidLib) (paymentClient : PaymentClient)
    (orders : Orders P) (req : order_v1.PayOrderRequest) (orderUUID : UUID) (order : Order P)
    (horder : orders (lib.str orderUUID) = some order) :
    (PayOrder lib paymentClient orders req orderUUID).orders (lib.str orderUUID) = some order
      ∨ ∃ transactionUUID : UUID,
        (PayOrder lib paymentClient orders req orderUUID).orders (lib.str orderUUID)
          = some (paidOrder order req transactionUUID) := by
  unfold PayOrder
  rw [horder]
  dsimp only
  split
  · exact Or.inl horder
  · split
    · exact Or.inl horder
    · split
      · exact Or.inl horder
      · rename_i transactionUUID _
        exact Or.inr ⟨transactionUUID, by simp⟩

/-- What `CancelOrder` leaves under the id it is called with: the order as it
was, or that order marked cancelled. -/
theorem CancelOrder_orders_target {P : Type} (lib : UuidLib) (orders : Orders P)
    (orderUUID : UUID) (order : Order P) (horder : orders (lib.str orderUUID) = some order) :
    (CancelOrder lib orders orderUUID).2 (lib.str orderUUID) = some order
      ∨ (CancelOrder lib orders orderUUID).2 (lib.str orderUUID)
        = some { order with Status := .CANCELLED } := by
  unfold CancelOrder
  rw [horder]
  dsimp only
  split
  · exact Or.inl horder
  · split
    · exact Or.inl horder
    · exact Or.inr (by simp)

/-- In every map reached from the empty map, a `PENDING_PAYMENT` or
`CANCELLED` order has no transaction id and an unset payment method. -/
theorem run_not_paid {P : Type} [Zero P] [Add P] (lib : UuidLib) (calls : List (Call P))
    (key : String) (order : Order P) (horder : run lib calls key = some order)
    (hstatus : order.Status ≠ .PAID) :
    order.TransactionUUID = none ∧ order.PaymentMethod.Set = false := by
  have hinv := run_wellFormed lib calls key order horder
  have hnone : order.TransactionUUID = none := by
    cases htx : order.TransactionUUID with
    | none => rfl
    | some tx => exact absurd (hinv.1.2 (by simp [htx])) hstatus
  refine ⟨hnone, ?_⟩
  have hset := hinv.2
  rw [hnone] at hset
  simpa using hset.symm

/-- A `found` loop that compares with `==` fails exactly when the value is not
in the list. -/
theorem found_beq_eq_false_iff {α : Type} [DecidableEq α] (a : α) (xs : List α) :
    found (fun x => a == x) xs = false ↔ a ∉ xs := by
  rw [found_eq_false_iff]
  constructor
  · intro h hmem
    simpa using h a hmem
  · intro h x hx
    simp only [beq_eq_false_iff_ne]
    intro hEq
    exact h (hEq ▸ hx)

/-- The guard of one field block of `matchesFilter`: the block returns `false`
exactly when the list is non-empty and does not contain the value. -/
theorem field_guard_iff {α : Type} [DecidableEq α] (a : α) (xs : List α) :
    (xs.length > 0 ∧ found (fun x => a == x) xs = false) ↔ ¬ (xs = [] ∨ a ∈ xs) := by
  rw [found_beq_eq_false_iff, not_or, gt_iff_lt, List.length_pos]

/-- The tag block of `matchesFilter` lets the part through exactly when the
tag list is empty or has a tag of the part. -/
theorem matchesTags_eq_true_iff {P : Type} (part : inventoryv1.Part P)
    (filter : inventoryv1.PartsFilter) :
    matchesTags part filter = true
      ↔ (filter.Tags = [] ∨ ∃ tag ∈ filter.Tags, tag ∈ part.Tags) := by
  have hinner : ∀ tag : String,
      found (fun partTag => partTag == tag) part.Tags = true ↔ tag ∈ part.Tags := by
    intro tag
    rw [found_eq_true_iff]
    constructor
    · rintro ⟨x, hx, hEq⟩
      have : x = tag := by simpa using hEq
      exact this ▸ hx
    · intro h
      exact ⟨tag, h, by simp⟩
  have houter : found (fun tag => found (fun partTag => partTag == tag) part.Tags) filter.Tags
      = true ↔ ∃ tag ∈ filter.Tags, tag ∈ part.Tags := by
    rw [found_eq_true_iff]
    constructor
    · rintro ⟨tag, hmem, h⟩
      exact ⟨tag, hmem, (hinner tag).mp h⟩
    · rintro ⟨tag, hmem, h⟩
      exact ⟨tag, hmem, (hinner tag).mpr h⟩
  unfold matchesTags
  by_cases hex : ∃ tag ∈ filter.Tags, tag ∈ part.Tags
  · have hf := houter.mpr hex
    simp [hf, hex]
  · have hf : found (fun tag => found (fun partTag => partTag == tag) part.Tags) filter.Tags
        = false := by
      rw [← Bool.not_eq_true, houter]
      exact hex
    by_cases hnil : filter.Tags = []
    · simp [hnil]
    · have hpos : filter.Tags.length > 0 := List.length_pos.mpr hnil
      simp [hf, hex, hnil, hpos]

/-- Every call keeps each order under the key written in it. -/
theorem Call.apply_keyed {P : Type} [Zero P] [Add P] (lib : UuidLib) (orders : Orders P)
    (call : Call P) (h : orders.Keyed) : Orders.Keyed (call.apply lib orders) := by
  intro key after hafter
  cases call with
  | CreateOrder inventoryClient newUUID req =>
    simp only [Call.apply] at hafter
    by_cases hkey : key = lib.str newUUID
    · subst hkey
      unfold RocketFactory.CreateOrder at hafter
      dsimp only at hafter
      split at hafter
      · exact h _ _ hafter
      · split at hafter
        · exact h _ _ hafter
        · simp at hafter
          rw [← hafter]
    · rw [CreateOrder_orders_other _ _ _ _ _ _ hkey] at hafter
      exact h _ _ hafter
  | GetOrder orderUUID => exact h _ _ hafter
  | PayOrder paymentClient req orderUUID =>
    simp only [Call.apply] at hafter
    by_cases hkey : key = lib.str orderUUID
    · subst hkey
      cases horder : orders (lib.str orderUUID) with
      | none =>
        simp [RocketFactory.PayOrder, horder] at hafter
      | some order =>
        rcases PayOrder_orders_target lib paymentClient orders req orderUUID order horder with
          h2 | ⟨transactionUUID, h2⟩
        · rw [h2] at hafter
          cases hafter
          exact h _ _ horder
        · rw [h2] at hafter
          cases hafter
          exact h _ order horder
    · rw [PayOrder_orders_other _ _ _ _ _ _ hkey] at hafter
      exact h _ _ hafter
  | CancelOrder orderUUID =>
    simp only [Call.apply] at hafter
    by_cases hkey : key = lib.str orderUUID
    · subst hkey
      cases horder : orders (lib.str orderUUID) with
      | none =>
        simp [RocketFactory.CancelOrder, horder] at hafter
      | some order =>
        rcases CancelOrder_orders_target lib orders orderUUID order horder with h2 | h2
        · rw [h2] at hafter
          cases hafter
          exact h _ _ horder
        · rw [h2] at hafter
          cases hafter
          exact h _ order horder
    · rw [CancelOrder_orders_other _ _ _ _ hkey] at hafter
      exact h _ _ hafter

/-- A sequence of calls keeps each order under the key written in it. -/
theorem foldl_keyed {P : Type} [Zero P] [Add P] (lib : UuidLib) (calls : List (Call P))
    (orders : Orders P) (h : orders.Keyed) :
    Orders.Keyed (calls.foldl (Call.apply lib) orders) := by
  induction calls generalizing orders with
  | nil => exact h
  | cons call rest ih => exact ih _ (Call.apply_keyed lib orders call h)

/-- In every map reached from the empty map each order is stored under the key
written in it. -/
theorem run_keyed {P : Type} [Zero P] [Add P] (lib : UuidLib) (calls : List (Call P)) :
    Orders.Keyed (run lib calls) :=
  foldl_keyed lib calls _ (fun _ _ h => by simp [emptyOrders] at h)

/-- The parts `ListParts` returns for a list of ids with a repetition, from a
catalog with distinct uuids, are fewer than the ids. -/
theorem filter_length_lt_of_repeated {P : Type} (ids : List String)
    (parts : List (inventoryv1.Part P))
    (hnodup : (parts.map (fun part => part.Uuid)).Nodup) (hrep : ¬ ids.Nodup) :
    (parts.filter (fun part => decide (ids = [] ∨ part.Uuid ∈ ids))).length < ids.length := by
  have hne : ids ≠ [] := by
    intro h
    exact hrep (h ▸ List.nodup_nil)
  have hsub : List.Sublist
      ((parts.filter (fun part => decide (ids = [] ∨ part.Uuid ∈ ids))).map
        (fun part => part.Uuid))
      (parts.map (fun part => part.Uuid)) :=
    (List.filter_sublist parts).map _
  have hsubset : (parts.filter (fun part => decide (ids = [] ∨ part.Uuid ∈ ids))).map
      (fun part => part.Uuid) ⊆ ids.dedup := by
    intro x hx
    obtain ⟨part, hpart, rfl⟩ := List.mem_map.mp hx
    have := (List.mem_filter.mp hpart).2
    exact List.mem_dedup.mpr (by simpa [hne] using this)
  have hle := ((hnodup.sublist hsub).subperm hsubset).length_le
  have hlt : ids.dedup.length < ids.length := by
    rcases Nat.lt_or_ge ids.dedup.length ids.length with h | h
    · exact h
    · exfalso
      have hEq : ids.dedup = ids :=
        (List.dedup_sublist ids).eq_of_length_le h
      exact hrep (hEq ▸ List.nodup_dedup ids)
  rw [List.length_map] at hle
  omega

/-- What the count check of `CreateOrder` does with an empty list of part ids
against `ListParts`: the empty `Uuids` list switches the uuid filter off, so
every part of the catalog is returned; the order is stored only when the
catalog has no parts, and with any part in the catalog the answer is
`BadRequestError`. -/
theorem CreateOrder_of_no_part_ids {P : Type} [Zero P] [Add P] (lib : UuidLib)
    (parts : List (inventoryv1.Part P)) (newUUID : UUID) (orders : Orders P)
    (userUUID : UUID) :
    (parts = [] →
        CreateOrder lib (inventoryOf parts) newUUID orders
            { UserUUID := userUUID, PartUuids := [] }
          = (.CreateOrderResponse newUUID 0,
              Function.update orders (lib.str newUUID)
                (some
                  { OrderUUID := lib.str newUUID
                    UserUUID := userUUID
                    PartUUIDs := []
                    TotalPrice := 0
                    TransactionUUID := none
                    PaymentMethod := { Value := .other "", Set := false }
                    Status := .PENDINGPAYMENT })))
      ∧ (parts ≠ [] →
        CreateOrder lib (inventoryOf parts) newUUID orders
            { UserUUID := userUUID, PartUuids := [] }
          = (.BadRequestError "Некоторые детали не найдены", orders)) := by
  constructor
  · intro h
    subst h
    unfold CreateOrder
    dsimp only [List.map]
    rw [inventoryOf_uuids]
    simp [sumPrices]
  · intro h
    unfold CreateOrder
    dsimp only [List.map]
    rw [inventoryOf_uuids]
    simp [h]

/-! ## Claims -/

/-- C1: when the catalog answers without error and with as many records as
ids were requested, `CreateOrder` returns a `CreateOrderResponse` with the
generated id and the left-to-right sum of the returned prices, and `GetOrder`
on that id in the resulting map returns the order with the same total, the
given user and parts, status `PENDING_PAYMENT`, no transaction id and an unset
payment method. -/
theorem createOrder_then_getOrder {P : Type} [Zero P] [Add P] (lib : UuidLib)
    (inventoryClient : inventoryv1.ListPartsRequest →
      Except String (inventoryv1.ListPartsResponse P))
    (newUUID : UUID) (orders : Orders P) (req : order_v1.CreateOrderRequest)
    (partsResp : inventoryv1.ListPartsResponse P)
    (hresp : inventoryClient { Filter := some { Uuids := req.PartUuids.map lib.str } }
      = .ok partsResp)
    (hcount : partsResp.Parts.length = req.PartUuids.length) :
    (CreateOrder lib inventoryClient newUUID orders req).1
        = .CreateOrderResponse newUUID
            ((partsResp.Parts.map (fun part => part.Price)).foldl (fun a b => a + b) 0)
      ∧ GetOrder lib (CreateOrder lib inventoryClient newUUID orders req).2 newUUID
        = some (.OrderDto
            { OrderUUID := newUUID
              UserUUID := req.UserUUID
              PartUuids := req.PartUuids
              TotalPrice :=
                (partsResp.Parts.map (fun part => part.Price)).foldl (fun a b => a + b) 0
              TransactionUUID := none
              PaymentMethod := { Value := .other "", Set := false }
              Status := .PENDINGPAYMENT }) := by
  simp [CreateOrder, GetOrder, hresp, hcount, sumPrices_eq_foldl, lib.parse_str]

/-- Witness for C1: the parts priced 2500000 and 1800000 give 4300000. -/
theorem createOrder_then_getOrder_witness :
    (CreateOrder unaryUuid (fun _ => .ok { Parts := [engine001, fuel001] }) ⟨7⟩
        (emptyOrders Nat) { UserUUID := ⟨1⟩, PartUuids := [⟨2⟩, ⟨3⟩] }).1
        = .CreateOrderResponse ⟨7⟩ 4300000
      ∧ GetOrder unaryUuid
          (CreateOrder unaryUuid (fun _ => .ok { Parts := [engine001, fuel001] }) ⟨7⟩
            (emptyOrders Nat) { UserUUID := ⟨1⟩, PartUuids := [⟨2⟩, ⟨3⟩] }).2 ⟨7⟩
        = some (.OrderDto
            { OrderUUID := ⟨7⟩, UserUUID := ⟨1⟩, PartUuids := [⟨2⟩, ⟨3⟩], TotalPrice := 4300000
              TransactionUUID := none, PaymentMethod := { Value := .other "", Set := false }
              Status := .PENDINGPAYMENT }) :=
  createOrder_then_getOrder unaryUuid (fun _ => .ok { Parts := [engine001, fuel001] }) ⟨7⟩
    (emptyOrders Nat) { UserUUID := ⟨1⟩, PartUuids := [⟨2⟩, ⟨3⟩] }
    { Parts := [engine001, fuel001] } rfl rfl

/-- C2 (the code differs): paying an order a second time, and paying a
cancelled order, make no call to the payment client and leave the map
unchanged, but the response is `InternalServerError`, not `ConflictError`. -/
theorem payOrder_finalized_returns_internalServerError :
    (paidThenCancelled "ff").map (fun order => order.Status) = some .PAID
      ∧ (paidThenCancelled "fff").map (fun order => order.Status) = some .CANCELLED
      ∧ PayOrder unaryUuid (paymentServer.PayOrder unaryUuid ⟨8⟩) paidThenCancelled ⟨.CARD⟩ ⟨2⟩
        = ⟨.InternalServerError "Заказ уже оплачен или отменен", paidThenCancelled, []⟩
      ∧ PayOrder unaryUuid (paymentServer.PayOrder unaryUuid ⟨8⟩) paidThenCancelled ⟨.CARD⟩ ⟨3⟩
        = ⟨.InternalServerError "Заказ уже оплачен или отменен", paidThenCancelled, []⟩ := by
  have h2 : paidThenCancelled (unaryUuid.str ⟨2⟩)
      = some (paidOrder (sampleOrder 2 .PENDINGPAYMENT) ⟨.SBP⟩ ⟨5⟩) := by
    decide
  have h3 : paidThenCancelled (unaryUuid.str ⟨3⟩) = some (sampleOrder 3 .CANCELLED) := by
    decide
  exact ⟨by decide, by decide,
    PayOrder_of_not_pending _ _ _ _ _ _ h2 (by decide),
    PayOrder_of_not_pending _ _ _ _ _ _ h3 (by decide)⟩

/-- C3: on a `PENDING_PAYMENT` order, when the payment client succeeds with a
transaction id that `uuid.Parse` accepts, `PayOrder` returns a
`PayOrderResponse` with exactly that id, and the stored order afterwards is the
same order with status `PAID`, that transaction id and the payment method of
the request. -/
theorem payOrder_success {P : Type} (lib : UuidLib) (paymentClient : PaymentClient)
    (orders : Orders P) (req : order_v1.PayOrderRequest) (orderUUID : UUID) (order : Order P)
    (paymentResp : paymentv1.PayOrderResponse) (transactionUUID : UUID)
    (horder : orders (lib.str orderUUID) = some order)
    (hstatus : order.Status = .PENDINGPAYMENT)
    (hpay : paymentClient
        { OrderUuid := lib.str orderUUID
          UserUuid := lib.str order.UserUUID
          PaymentMethod := toPaymentMethod req.PaymentMethod } = .ok paymentResp)
    (hparse : lib.parse paymentResp.TransactionUuid = some transactionUUID) :
    (PayOrder lib paymentClient orders req orderUUID).res = .PayOrderResponse transactionUUID
      ∧ (PayOrder lib paymentClient orders req orderUUID).orders (lib.str orderUUID)
        = some { order with
            Status := .PAID
            TransactionUUID := some transactionUUID
            PaymentMethod := { Value := req.PaymentMethod, Set := true } } := by
  simp [PayOrder, horder, hstatus, hpay, hparse, paidOrder]

/-- Witness for C3: order 2 of a one-order map is paid by card with
transaction 5. -/
theorem payOrder_success_witness :
    (PayOrder unaryUuid (fun _ => .ok ⟨"fffff"⟩)
        (Function.update (emptyOrders Nat) "ff" (some (sampleOrder 2 .PENDINGPAYMENT)))
        ⟨.CARD⟩ ⟨2⟩).res = .PayOrderResponse ⟨5⟩
      ∧ (PayOrder unaryUuid (fun _ => .ok ⟨"fffff"⟩)
        (Function.update (emptyOrders Nat) "ff" (some (sampleOrder 2 .PENDINGPAYMENT)))
        ⟨.CARD⟩ ⟨2⟩).orders "ff"
        = some { sampleOrder 2 .PENDINGPAYMENT with
            Status := .PAID
            TransactionUUID := some ⟨5⟩
            PaymentMethod := { Value := .CARD, Set := true } } :=
  payOrder_success unaryUuid (fun _ => .ok ⟨"fffff"⟩)
    (Function.update (emptyOrders Nat) "ff" (some (sampleOrder 2 .PENDINGPAYMENT)))
    ⟨.CARD⟩ ⟨2⟩ (sampleOrder 2 .PENDINGPAYMENT) ⟨"fffff"⟩ ⟨5⟩ (by decide) rfl rfl (by decide)

/-- C4: on a `PENDING_PAYMENT` order, when the payment client returns an error,
`PayOrder` returns `InternalServerError` with the text of that error and the
map is unchanged, so the order is still stored as it was: `PENDING_PAYMENT`,
with the transaction id and payment method it had (none). -/
theorem payOrder_payment_error {P : Type} [Zero P] [Add P] (lib : UuidLib) (paymentClient : PaymentClient)
    (orders : Orders P) (req : order_v1.PayOrderRequest) (orderUUID : UUID) (order : Order P)
    (err : String)
    (horder : orders (lib.str orderUUID) = some order)
    (hstatus : order.Status = .PENDINGPAYMENT)
    (hpay : paymentClient
        { OrderUuid := lib.str orderUUID
          UserUuid := lib.str order.UserUUID
          PaymentMethod := toPaymentMethod req.PaymentMethod } = .error err) :
    (PayOrder lib paymentClient orders req orderUUID).res
        = .InternalServerError ("Ошибка при оплате: " ++ err)
      ∧ (PayOrder lib paymentClient orders req orderUUID).orders = orders
      ∧ (PayOrder lib paymentClient orders req orderUUID).orders (lib.str orderUUID)
        = some order
      ∧ (∀ calls : List (Call P), run lib calls = orders →
          order.TransactionUUID = none ∧ order.PaymentMethod.Set = false) := by
  refine ⟨?_, ?_, ?_, ?_⟩
  · simp [PayOrder, horder, hstatus, hpay]
  · simp [PayOrder, horder, hstatus, hpay]
  · simp [PayOrder, horder, hstatus, hpay]
  · intro calls hrun
    have hinv := run_wellFormed lib calls (lib.str orderUUID) order (by rw [hrun]; exact horder)
    have hnone : order.TransactionUUID = none := by
      cases htx : order.TransactionUUID with
      | none => rfl
      | some tx =>
        have hpaid := hinv.1.2 (by simp [htx])
        rw [hstatus] at hpaid
        cases hpaid
    refine ⟨hnone, ?_⟩
    have hset := hinv.2
    rw [hnone] at hset
    simpa using hset.symm

/-- Witness for C4: the payment service is unreachable while order 2 is
pending. -/
theorem payOrder_payment_error_witness :
    (PayOrder unaryUuid (fun _ => .error "unavailable")
        (Function.update (emptyOrders Nat) "ff" (some (sampleOrder 2 .PENDINGPAYMENT)))
        ⟨.CARD⟩ ⟨2⟩).res = .InternalServerError ("Ошибка при оплате: " ++ "unavailable")
      ∧ (PayOrder unaryUuid (fun _ => .error "unavailable")
        (Function.update (emptyOrders Nat) "ff" (some (sampleOrder 2 .PENDINGPAYMENT)))
        ⟨.CARD⟩ ⟨2⟩).orders
        = Function.update (emptyOrders Nat) "ff" (some (sampleOrder 2 .PENDINGPAYMENT))
      ∧ (PayOrder unaryUuid (fun _ => .error "unavailable")
        (Function.update (emptyOrders Nat) "ff" (some (sampleOrder 2 .PENDINGPAYMENT)))
        ⟨.CARD⟩ ⟨2⟩).orders "ff" = some (sampleOrder 2 .PENDINGPAYMENT)
      ∧ (∀ calls : List (Call Nat), run unaryUuid calls
            = Function.update (emptyOrders Nat) "ff" (some (sampleOrder 2 .PENDINGPAYMENT)) →
          (sampleOrder 2 .PENDINGPAYMENT).TransactionUUID = none
            ∧ (sampleOrder 2 .PENDINGPAYMENT).PaymentMethod.Set = false) :=
  payOrder_payment_error unaryUuid (fun _ => .error "unavailable")
    (Function.update (emptyOrders Nat) "ff" (some (sampleOrder 2 .PENDINGPAYMENT)))
    ⟨.CARD⟩ ⟨2⟩ (sampleOrder 2 .PENDINGPAYMENT) "unavailable" (by decide) rfl rfl

/-- C5: `CancelOrder` on a `PENDING_PAYMENT` order returns
`CancelOrderNoContent` and stores the order with status `CANCELLED`; on a
`CANCELLED` order it returns `CancelOrderNoContent` and leaves the map
unchanged; on a `PAID` order it returns `ConflictError` and leaves the map
unchanged; on an absent id it returns `NotFoundError` and leaves the map
unchanged; and a second `CancelOrder` never changes the map the first one
left. -/
theorem cancelOrder_cases {P : Type} (lib : UuidLib) (orders : Orders P) (orderUUID : UUID) :
    (∀ order : Order P, orders (lib.str orderUUID) = some order →
        order.Status = .PENDINGPAYMENT →
        (CancelOrder lib orders orderUUID).1 = .CancelOrderNoContent
          ∧ (CancelOrder lib orders orderUUID).2 (lib.str orderUUID)
            = some { order with Status := .CANCELLED })
      ∧ (∀ order : Order P, orders (lib.str orderUUID) = some order →
        order.Status = .CANCELLED →
        CancelOrder lib orders orderUUID = (.CancelOrderNoContent, orders))
      ∧ (∀ order : Order P, orders (lib.str orderUUID) = some order →
        order.Status = .PAID →
        CancelOrder lib orders orderUUID
          = (.ConflictError "Нельзя отменить оплаченный заказ", orders))
      ∧ (orders (lib.str orderUUID) = none →
        CancelOrder lib orders orderUUID = (.NotFoundError "Заказ не найден", orders))
      ∧ (CancelOrder lib (CancelOrder lib orders orderUUID).2 orderUUID).2
        = (CancelOrder lib orders orderUUID).2 := by
  refine ⟨?_, ?_, ?_, ?_, ?_⟩
  · intro order horder hstatus
    simp [CancelOrder, horder, hstatus]
  · intro order horder hstatus
    simp [CancelOrder, horder, hstatus]
  · intro order horder hstatus
    simp [CancelOrder, horder, hstatus]
  · intro horder
    simp [CancelOrder, horder]
  · cases horder : orders (lib.str orderUUID) with
    | none => simp [CancelOrder, horder]
    | some order =>
      cases hstatus : order.Status <;> simp [CancelOrder, horder, hstatus]

/-- Witness for C5: in the map with order 2 paid and order 3 cancelled,
order 4 is created and cancelled, order 3 is cancelled again, order 2 cannot
be cancelled and order 9 does not exist. -/
theorem cancelOrder_cases_witness :
    ((CancelOrder unaryUuid
          (Function.update paidThenCancelled "ffff" (some (sampleOrder 4 .PENDINGPAYMENT)))
          ⟨4⟩).1 = .CancelOrderNoContent
        ∧ (CancelOrder unaryUuid
          (Function.update paidThenCancelled "ffff" (some (sampleOrder 4 .PENDINGPAYMENT)))
          ⟨4⟩).2 "ffff" = some (sampleOrder 4 .CANCELLED))
      ∧ CancelOrder unaryUuid paidThenCancelled ⟨3⟩ = (.CancelOrderNoContent, paidThenCancelled)
      ∧ CancelOrder unaryUuid paidThenCancelled ⟨2⟩
        = (.ConflictError "Нельзя отменить оплаченный заказ", paidThenCancelled)
      ∧ CancelOrder unaryUuid paidThenCancelled ⟨9⟩
        = (.NotFoundError "Заказ не найден", paidThenCancelled) :=
  ⟨(cancelOrder_cases unaryUuid
      (Function.update paidThenCancelled "ffff" (some (sampleOrder 4 .PENDINGPAYMENT))) ⟨4⟩).1
      (sampleOrder 4 .PENDINGPAYMENT) (by decide) rfl,
    (cancelOrder_cases unaryUuid paidThenCancelled ⟨3⟩).2.1
      (sampleOrder 3 .CANCELLED) (by decide) rfl,
    (cancelOrder_cases unaryUuid paidThenCancelled ⟨2⟩).2.2.1
      (paidOrder (sampleOrder 2 .PENDINGPAYMENT) ⟨.SBP⟩ ⟨5⟩) (by decide) rfl,
    (cancelOrder_cases unaryUuid paidThenCancelled ⟨9⟩).2.2.2.1 (by decide)⟩

/-- C9: in every map reached from the empty map by a sequence of `CreateOrder`,
`GetOrder`, `PayOrder` and `CancelOrder` calls, with any catalog and payment
behaviour, every stored order has a transaction id exactly when its payment
method is set. -/
theorem reachable_transaction_and_method_together {P : Type} [Zero P] [Add P] (lib : UuidLib)
    (calls : List (Call P)) (key : String) (order : Order P)
    (horder : run lib calls key = some order) :
    (order.TransactionUUID ≠ none ∧ order.PaymentMethod.Set = true)
      ∨ (order.TransactionUUID = none ∧ order.PaymentMethod.Set = false) := by
  have h := (run_wellFormed lib calls key order horder).2
  cases htx : order.TransactionUUID with
  | none =>
    right
    rw [htx] at h
    exact ⟨rfl, by simpa using h.symm⟩
  | some tx =>
    left
    rw [htx] at h
    exact ⟨by simp, by simpa using h.symm⟩

/-- Witness for C9: the paid order 2 and the cancelled order 3 of
`paidThenCancelled`. -/
theorem reachable_transaction_and_method_together_witness :
    (((paidOrder (sampleOrder 2 .PENDINGPAYMENT) ⟨.SBP⟩ ⟨5⟩).TransactionUUID ≠ none
        ∧ (paidOrder (sampleOrder 2 .PENDINGPAYMENT) ⟨.SBP⟩ ⟨5⟩).PaymentMethod.Set = true)
      ∨ ((paidOrder (sampleOrder 2 .PENDINGPAYMENT) ⟨.SBP⟩ ⟨5⟩).TransactionUUID = none
        ∧ (paidOrder (sampleOrder 2 .PENDINGPAYMENT) ⟨.SBP⟩ ⟨5⟩).PaymentMethod.Set = false))
      ∧ (((sampleOrder 3 .CANCELLED).TransactionUUID ≠ none
        ∧ (sampleOrder 3 .CANCELLED).PaymentMethod.Set = true)
      ∨ ((sampleOrder 3 .CANCELLED).TransactionUUID = none
        ∧ (sampleOrder 3 .CANCELLED).PaymentMethod.Set = false)) :=
  ⟨reachable_transaction_and_method_together unaryUuid
      [ .CreateOrder (fun _ => .ok { Parts := [] }) ⟨2⟩ { UserUUID := ⟨1⟩, PartUuids := [] },
        .CreateOrder (fun _ => .ok { Parts := [] }) ⟨3⟩ { UserUUID := ⟨1⟩, PartUuids := [] },
        .PayOrder (paymentServer.PayOrder unaryUuid ⟨5⟩) ⟨.SBP⟩ ⟨2⟩,
        .CancelOrder ⟨3⟩ ] "ff" _ (by decide),
    reachable_transaction_and_method_together unaryUuid
      [ .CreateOrder (fun _ => .ok { Parts := [] }) ⟨2⟩ { UserUUID := ⟨1⟩, PartUuids := [] },
        .CreateOrder (fun _ => .ok { Parts := [] }) ⟨3⟩ { UserUUID := ⟨1⟩, PartUuids := [] },
        .PayOrder (paymentServer.PayOrder unaryUuid ⟨5⟩) ⟨.SBP⟩ ⟨2⟩,
        .CancelOrder ⟨3⟩ ] "fff" _ (by decide)⟩

/-- C10: for every map and every single call (`CreateOrder` with an id not yet
in the map, `GetOrder`, `PayOrder`, `CancelOrder`, with any arguments and any
catalog or payment behaviour), an order that is `PAID` before the call is
`PAID` after it and an order that is `CANCELLED` before the call is
`CANCELLED` after it, under the same key. -/
theorem finalized_status_kept {P : Type} [Zero P] [Add P] (lib : UuidLib) (orders : Orders P)
    (call : Call P) (key : String) (order : Order P)
    (hfresh : ∀ inventoryClient newUUID req,
      call = .CreateOrder inventoryClient newUUID req → orders (lib.str newUUID) = none)
    (horder : orders key = some order) :
    (order.Status = .PAID →
        ∃ after : Order P, call.apply lib orders key = some after ∧ after.Status = .PAID)
      ∧ (order.Status = .CANCELLED →
        ∃ after : Order P, call.apply lib orders key = some after
          ∧ after.Status = .CANCELLED) := by
  constructor
  · intro hs
    exact ⟨order, Call.apply_of_not_pending lib orders call key order hfresh horder
      (by rw [hs]; decide), hs⟩
  · intro hs
    exact ⟨order, Call.apply_of_not_pending lib orders call key order hfresh horder
      (by rw [hs]; decide), hs⟩

/-- Witness for C10: a second `PayOrder` on the paid order 2 of
`paidThenCancelled` leaves it `PAID`, and creating order 4, whose id is not in
the map, leaves order 3 `CANCELLED`. -/
theorem finalized_status_kept_witness :
    (∃ after : Order Nat,
      (Call.PayOrder (paymentServer.PayOrder unaryUuid ⟨8⟩) ⟨.CARD⟩ ⟨2⟩).apply unaryUuid
          paidThenCancelled "ff" = some after
        ∧ after.Status = .PAID)
      ∧ (∃ after : Order Nat,
        (Call.CreateOrder (fun _ => .ok { Parts := [] }) ⟨4⟩
            { UserUUID := ⟨1⟩, PartUuids := [] }).apply unaryUuid paidThenCancelled "fff"
          = some after
        ∧ after.Status = .CANCELLED) :=
  ⟨(finalized_status_kept unaryUuid paidThenCancelled
      (.PayOrder (paymentServer.PayOrder unaryUuid ⟨8⟩) ⟨.CARD⟩ ⟨2⟩) "ff"
      (paidOrder (sampleOrder 2 .PENDINGPAYMENT) ⟨.SBP⟩ ⟨5⟩)
      (fun _ _ _ h => by cases h) (by decide)).1 rfl,
    (finalized_status_kept unaryUuid paidThenCancelled
      (.CreateOrder (fun _ => .ok { Parts := [] }) ⟨4⟩ { UserUUID := ⟨1⟩, PartUuids := [] })
      "fff" (sampleOrder 3 .CANCELLED)
      (fun _ _ _ h => by cases h; decide) (by decide)).2 rfl⟩

/-- C7: against `ListParts` over a catalog whose parts have pairwise distinct
uuids, `CreateOrder` with a list of part ids one of which is the uuid of no
part returns `BadRequestError` and leaves the map as it was. -/
theorem createOrder_unresolvable_part {P : Type} [Zero P] [Add P] (lib : UuidLib)
    (parts : List (inventoryv1.Part P)) (newUUID : UUID) (orders : Orders P)
    (req : order_v1.CreateOrderRequest)
    (hnodup : (parts.map (fun part => part.Uuid)).Nodup)
    (hmissing : ∃ partUUID ∈ req.PartUuids, ∀ part ∈ parts, part.Uuid ≠ lib.str partUUID) :
    CreateOrder lib (inventoryOf parts) newUUID orders req
      = (.BadRequestError "Некоторые детали не найдены", orders) := by
  obtain ⟨partUUID, hmem, hmiss⟩ := hmissing
  have hlt := filter_length_lt_of_missing (req.PartUuids.map lib.str) parts hnodup
    (lib.str partUUID) (List.mem_map_of_mem _ hmem) hmiss
  rw [List.length_map] at hlt
  unfold CreateOrder
  dsimp only
  rw [inventoryOf_uuids]
  dsimp only
  rw [if_pos (Nat.ne_of_lt hlt)]

/-- Witness for C7: the catalog holds parts "ff" and "fff"; the request asks
for "ff" and for "fffff", which the catalog does not have. -/
theorem createOrder_unresolvable_part_witness :
    CreateOrder unaryUuid
        (inventoryOf [{ engine001 with Uuid := "ff" }, { fuel001 with Uuid := "fff" }]) ⟨7⟩
        paidThenCancelled { UserUUID := ⟨1⟩, PartUuids := [⟨2⟩, ⟨5⟩] }
      = (.BadRequestError "Некоторые детали не найдены", paidThenCancelled) :=
  createOrder_unresolvable_part unaryUuid
    [{ engine001 with Uuid := "ff" }, { fuel001 with Uuid := "fff" }] ⟨7⟩
    paidThenCancelled { UserUUID := ⟨1⟩, PartUuids := [⟨2⟩, ⟨5⟩] } (by decide)
    ⟨⟨5⟩, by decide, by decide⟩

/-- C6 (the code differs): two `PayOrder` calls on the same freshly created
order, interleaved part by part, both pass the status check, both charge the
payment service and both write: each returns a transaction id (5 and 6), two
transitions to `PAID` are performed, and the order first records transaction 5
and then transaction 6. -/
theorem payOrder_concurrent_double_payment :
    (racingPayments.orders "ff").map (fun order => order.Status) = some .PENDINGPAYMENT
      ∧ (racingPayments.exec unaryUuid [0, 1, 0, 1, 0, 1]).result 0
        = some (.PayOrderResponse ⟨5⟩)
      ∧ (racingPayments.exec unaryUuid [0, 1, 0, 1, 0, 1]).result 1
        = some (.PayOrderResponse ⟨6⟩)
      ∧ racingPayments.paidWrites unaryUuid [0, 1, 0, 1, 0, 1] = [⟨5⟩, ⟨6⟩]
      ∧ ((racingPayments.exec unaryUuid [0, 1, 0, 1, 0]).orders "ff").map
          (fun order => (order.Status, order.TransactionUUID, order.PaymentMethod))
        = some (.PAID, some ⟨5⟩, { Value := .CARD, Set := true })
      ∧ ((racingPayments.exec unaryUuid [0, 1, 0, 1, 0, 1]).orders "ff").map
          (fun order => (order.Status, order.TransactionUUID, order.PaymentMethod))
        = some (.PAID, some ⟨6⟩, { Value := .SBP, Set := true }) := by
  refine ⟨by decide, by decide, by decide, by decide, by decide, by decide⟩

/-- C8 (the code differs): against `ListParts` over a catalog with two parts,
`CreateOrder` with an empty list of part ids does not create a zero-price
order: it returns `BadRequestError` "some parts not found", although no
requested part is missing, and stores no order. -/
theorem createOrder_empty_parts_nonempty_catalog :
    (CreateOrder unaryUuid (inventoryOf [engine001, fuel001]) ⟨7⟩ (emptyOrders Nat)
        { UserUUID := ⟨1⟩, PartUuids := [] }).1
        = .BadRequestError "Некоторые детали не найдены"
      ∧ (CreateOrder unaryUuid (inventoryOf [engine001, fuel001]) ⟨7⟩ (emptyOrders Nat)
        { UserUUID := ⟨1⟩, PartUuids := [] }).2 (unaryUuid.str ⟨7⟩) = none := by
  constructor <;> decide

/-- C11: for every map and every single call (`CreateOrder` with an id not yet
in the map, `GetOrder`, `PayOrder`, `CancelOrder`), an order stored before the
call is stored after it under the same key with the same `OrderUUID`,
`UserUUID`, `PartUUIDs` and `TotalPrice`, and an order under any key other
than the one the call addresses is stored unchanged. -/
theorem call_frame {P : Type} [Zero P] [Add P] (lib : UuidLib) (orders : Orders P)
    (call : Call P) (key : String) (order : Order P)
    (hfresh : ∀ inventoryClient newUUID req,
      call = .CreateOrder inventoryClient newUUID req → orders (lib.str newUUID) = none)
    (horder : orders key = some order) :
    ∃ after : Order P,
      call.apply lib orders key = some after
        ∧ after.OrderUUID = order.OrderUUID
        ∧ after.UserUUID = order.UserUUID
        ∧ after.PartUUIDs = order.PartUUIDs
        ∧ after.TotalPrice = order.TotalPrice
        ∧ (key ≠ call.key lib → after = order) := by
  cases call with
  | CreateOrder inventoryClient newUUID req =>
    have hnone := hfresh inventoryClient newUUID req rfl
    have hkey : key ≠ lib.str newUUID := by
      intro h
      rw [h, hnone] at horder
      cases horder
    refine ⟨order, ?_, rfl, rfl, rfl, rfl, fun _ => rfl⟩
    simp only [Call.apply]
    rw [CreateOrder_orders_other _ _ _ _ _ _ hkey, horder]
  | GetOrder orderUUID => exact ⟨order, horder, rfl, rfl, rfl, rfl, fun _ => rfl⟩
  | PayOrder paymentClient req orderUUID =>
    by_cases hkey : key = lib.str orderUUID
    · subst hkey
      rcases PayOrder_orders_target lib paymentClient orders req orderUUID order horder with
        h | ⟨transactionUUID, h⟩
      · exact ⟨order, h, rfl, rfl, rfl, rfl, fun _ => rfl⟩
      · exact ⟨paidOrder order req transactionUUID, h, rfl, rfl, rfl, rfl,
          fun hne => absurd rfl hne⟩
    · refine ⟨order, ?_, rfl, rfl, rfl, rfl, fun _ => rfl⟩
      simp only [Call.apply]
      rw [PayOrder_orders_other _ _ _ _ _ _ hkey, horder]
  | CancelOrder orderUUID =>
    by_cases hkey : key = lib.str orderUUID
    · subst hkey
      rcases CancelOrder_orders_target lib orders orderUUID order horder with h | h
      · exact ⟨order, h, rfl, rfl, rfl, rfl, fun _ => rfl⟩
      · exact ⟨{ order with Status := .CANCELLED }, h, rfl, rfl, rfl, rfl,
          fun hne => absurd rfl hne⟩
    · refine ⟨order, ?_, rfl, rfl, rfl, rfl, fun _ => rfl⟩
      simp only [Call.apply]
      rw [CancelOrder_orders_other _ _ _ _ hkey, horder]

/-- Witness for C11: in the map with order 2 paid, order 3 cancelled and
order 4 pending, paying order 4 changes only its status, transaction id and
payment method and leaves order 2 as it was; creating order 5, whose id is not
in the map, leaves order 3 as it was. -/
theorem call_frame_witness :
    (∃ after : Order Nat,
      (Call.PayOrder (paymentServer.PayOrder unaryUuid ⟨9⟩) ⟨.CARD⟩ ⟨4⟩).apply unaryUuid
          (Function.update paidThenCancelled "ffff" (some (sampleOrder 4 .PENDINGPAYMENT)))
          "ffff" = some after
        ∧ after.OrderUUID = (sampleOrder 4 .PENDINGPAYMENT).OrderUUID
        ∧ after.UserUUID = (sampleOrder 4 .PENDINGPAYMENT).UserUUID
        ∧ after.PartUUIDs = (sampleOrder 4 .PENDINGPAYMENT).PartUUIDs
        ∧ after.TotalPrice = (sampleOrder 4 .PENDINGPAYMENT).TotalPrice
        ∧ ("ffff" ≠ (Call.PayOrder (paymentServer.PayOrder unaryUuid ⟨9⟩) ⟨.CARD⟩
              ⟨4⟩ : Call Nat).key unaryUuid →
            after = sampleOrder 4 .PENDINGPAYMENT))
      ∧ (∃ after : Order Nat,
        (Call.CreateOrder (fun _ => .ok { Parts := [] }) ⟨5⟩
            { UserUUID := ⟨1⟩, PartUuids := [] }).apply unaryUuid paidThenCancelled "fff"
          = some after
        ∧ after.OrderUUID = (sampleOrder 3 .CANCELLED).OrderUUID
        ∧ after.UserUUID = (sampleOrder 3 .CANCELLED).UserUUID
        ∧ after.PartUUIDs = (sampleOrder 3 .CANCELLED).PartUUIDs
        ∧ after.TotalPrice = (sampleOrder 3 .CANCELLED).TotalPrice
        ∧ ("fff" ≠ (Call.CreateOrder (fun _ => .ok { Parts := [] }) ⟨5⟩
              { UserUUID := ⟨1⟩, PartUuids := [] } : Call Nat).key unaryUuid →
            after = sampleOrder 3 .CANCELLED)) :=
  ⟨call_frame unaryUuid
      (Function.update paidThenCancelled "ffff" (some (sampleOrder 4 .PENDINGPAYMENT)))
      (.PayOrder (paymentServer.PayOrder unaryUuid ⟨9⟩) ⟨.CARD⟩ ⟨4⟩) "ffff"
      (sampleOrder 4 .PENDINGPAYMENT) (fun _ _ _ h => by cases h) (by decide),
    call_frame unaryUuid paidThenCancelled
      (.CreateOrder (fun _ => .ok { Parts := [] }) ⟨5⟩ { UserUUID := ⟨1⟩, PartUuids := [] })
      "fff" (sampleOrder 3 .CANCELLED) (fun _ _ _ h => by cases h; decide) (by decide)⟩

/-- C12: on a `PENDING_PAYMENT` order, `PayOrder` calls the payment client
once, with the order id, the stored user id and the converted method, where
`CARD`, `SBP`, `CREDIT_CARD` and `INVESTOR_MONEY` are converted to the method
of the same name and every other value to `PAYMENT_METHOD_UNSPECIFIED`; and
whatever the method, a successful payment whose transaction id parses makes
`PayOrder` succeed. -/
theorem payOrder_request_sent {P : Type} (lib : UuidLib) (paymentClient : PaymentClient)
    (orders : Orders P) (req : order_v1.PayOrderRequest) (orderUUID : UUID) (order : Order P)
    (horder : orders (lib.str orderUUID) = some order)
    (hstatus : order.Status = .PENDINGPAYMENT) :
    (PayOrder lib paymentClient orders req orderUUID).calls
        = [{ OrderUuid := lib.str orderUUID
             UserUuid := lib.str order.UserUUID
             PaymentMethod := toPaymentMethod req.PaymentMethod }]
      ∧ toPaymentMethod .CARD = .PAYMENT_METHOD_CARD
      ∧ toPaymentMethod .SBP = .PAYMENT_METHOD_SBP
      ∧ toPaymentMethod .CREDITCARD = .PAYMENT_METHOD_CREDIT_CARD
      ∧ toPaymentMethod .INVESTORMONEY = .PAYMENT_METHOD_INVESTOR_MONEY
      ∧ (∀ raw : String, toPaymentMethod (.other raw) = .PAYMENT_METHOD_UNSPECIFIED)
      ∧ (∀ (paymentResp : paymentv1.PayOrderResponse) (transactionUUID : UUID),
          paymentClient
              { OrderUuid := lib.str orderUUID
                UserUuid := lib.str order.UserUUID
                PaymentMethod := toPaymentMethod req.PaymentMethod } = .ok paymentResp →
          lib.parse paymentResp.TransactionUuid = some transactionUUID →
          (PayOrder lib paymentClient orders req orderUUID).res
            = .PayOrderResponse transactionUUID) := by
  refine ⟨?_, rfl, rfl, rfl, rfl, fun _ => rfl, ?_⟩
  · unfold PayOrder
    rw [horder]
    simp only [hstatus, ne_eq, not_true_eq_false, if_false]
    split
    · rfl
    · split <;> rfl
  · intro paymentResp transactionUUID hpay hparse
    simp [PayOrder, horder, hstatus, hpay, hparse]

/-- Witness for C12: order 4 is paid with the method value "CASH", which is
none of the four named ones. -/
theorem payOrder_request_sent_witness :
    (PayOrder unaryUuid (paymentServer.PayOrder unaryUuid ⟨9⟩)
        (Function.update paidThenCancelled "ffff" (some (sampleOrder 4 .PENDINGPAYMENT)))
        ⟨.other "CASH"⟩ ⟨4⟩).calls
        = [{ OrderUuid := "ffff", UserUuid := "f"
             PaymentMethod := .PAYMENT_METHOD_UNSPECIFIED }]
      ∧ (PayOrder unaryUuid (paymentServer.PayOrder unaryUuid ⟨9⟩)
        (Function.update paidThenCancelled "ffff" (some (sampleOrder 4 .PENDINGPAYMENT)))
        ⟨.other "CASH"⟩ ⟨4⟩).res = .PayOrderResponse ⟨9⟩ :=
  ⟨(payOrder_request_sent unaryUuid (paymentServer.PayOrder unaryUuid ⟨9⟩)
      (Function.update paidThenCancelled "ffff" (some (sampleOrder 4 .PENDINGPAYMENT)))
      ⟨.other "CASH"⟩ ⟨4⟩ (sampleOrder 4 .PENDINGPAYMENT) (by decide) rfl).1,
    (payOrder_request_sent unaryUuid (paymentServer.PayOrder unaryUuid ⟨9⟩)
      (Function.update paidThenCancelled "ffff" (some (sampleOrder 4 .PENDINGPAYMENT)))
      ⟨.other "CASH"⟩ ⟨4⟩ (sampleOrder 4 .PENDINGPAYMENT) (by decide) rfl).2.2.2.2.2.2
      ⟨unaryUuid.str ⟨9⟩⟩ ⟨9⟩ rfl (by decide)⟩

/-- C14: when the catalog lookup itself returns an error, `CreateOrder`
returns `InternalServerError` with the text of that error, which is not a
`BadRequestError`, and leaves the map as it was. -/
theorem createOrder_lookup_error {P : Type} [Zero P] [Add P] (lib : UuidLib)
    (inventoryClient : inventoryv1.ListPartsRequest →
      Except String (inventoryv1.ListPartsResponse P))
    (newUUID : UUID) (orders : Orders P) (req : order_v1.CreateOrderRequest) (err : String)
    (hresp : inventoryClient { Filter := some { Uuids := req.PartUuids.map lib.str } }
      = .error err) :
    CreateOrder lib inventoryClient newUUID orders req
        = (.InternalServerError ("Ошибка при получении деталей: " ++ err), orders)
      ∧ ∀ message : String,
        (CreateOrder lib inventoryClient newUUID orders req).1 ≠ .BadRequestError message := by
  have h : CreateOrder lib inventoryClient newUUID orders req
      = (.InternalServerError ("Ошибка при получении деталей: " ++ err), orders) := by
    simp [CreateOrder, hresp]
  refine ⟨h, fun message => ?_⟩
  rw [h]
  simp

/-- Witness for C14: the inventory service is unreachable. -/
theorem createOrder_lookup_error_witness :
    CreateOrder unaryUuid (fun _ => .error "unavailable") ⟨7⟩ paidThenCancelled
        { UserUUID := ⟨1⟩, PartUuids := [⟨2⟩] }
        = (.InternalServerError ("Ошибка при получении деталей: " ++ "unavailable"),
            paidThenCancelled)
      ∧ ∀ message : String,
        (CreateOrder unaryUuid (fun _ => .error "unavailable") ⟨7⟩ paidThenCancelled
          { UserUUID := ⟨1⟩, PartUuids := [⟨2⟩] }).1 ≠ .BadRequestError message :=
  createOrder_lookup_error unaryUuid (fun _ => .error "unavailable") ⟨7⟩ paidThenCancelled
    { UserUUID := ⟨1⟩, PartUuids := [⟨2⟩] } "unavailable" rfl

/-- C16: in every map reached from the empty map by a sequence of complete
`CreateOrder`, `GetOrder`, `PayOrder` and `CancelOrder` calls, an order is
`PAID` exactly when it has a transaction id, and a `PENDING_PAYMENT` or
`CANCELLED` order has neither a transaction id nor a payment method. -/
theorem reachable_paid_iff_transaction {P : Type} [Zero P] [Add P] (lib : UuidLib)
    (calls : List (Call P)) (key : String) (order : Order P)
    (horder : run lib calls key = some order) :
    (order.Status = .PAID ↔ order.TransactionUUID ≠ none)
      ∧ (order.Status = .PENDINGPAYMENT ∨ order.Status = .CANCELLED →
        order.TransactionUUID = none ∧ order.PaymentMethod.Set = false) := by
  have hinv := run_wellFormed lib calls key order horder
  constructor
  · rw [hinv.1]
    cases order.TransactionUUID <;> simp
  · intro hstatus
    refine run_not_paid lib calls key order horder ?_
    rcases hstatus with h | h <;> rw [h] <;> decide

/-- Witness for C16: the paid order 2 of `paidThenCancelled`. -/
theorem reachable_paid_iff_transaction_witness :
    ((paidOrder (sampleOrder 2 .PENDINGPAYMENT) ⟨.SBP⟩ ⟨5⟩).Status = .PAID
        ↔ (paidOrder (sampleOrder 2 .PENDINGPAYMENT) ⟨.SBP⟩ ⟨5⟩).TransactionUUID ≠ none)
      ∧ ((paidOrder (sampleOrder 2 .PENDINGPAYMENT) ⟨.SBP⟩ ⟨5⟩).Status = .PENDINGPAYMENT
          ∨ (paidOrder (sampleOrder 2 .PENDINGPAYMENT) ⟨.SBP⟩ ⟨5⟩).Status = .CANCELLED →
        (paidOrder (sampleOrder 2 .PENDINGPAYMENT) ⟨.SBP⟩ ⟨5⟩).TransactionUUID = none
          ∧ (paidOrder (sampleOrder 2 .PENDINGPAYMENT) ⟨.SBP⟩ ⟨5⟩).PaymentMethod.Set = false) :=
  reachable_paid_iff_transaction unaryUuid
    [ .CreateOrder (fun _ => .ok { Parts := [] }) ⟨2⟩ { UserUUID := ⟨1⟩, PartUuids := [] },
      .CreateOrder (fun _ => .ok { Parts := [] }) ⟨3⟩ { UserUUID := ⟨1⟩, PartUuids := [] },
      .PayOrder (paymentServer.PayOrder unaryUuid ⟨5⟩) ⟨.SBP⟩ ⟨2⟩,
      .CancelOrder ⟨3⟩ ] "ff" _ (by decide)

/-- C19: on a `PENDING_PAYMENT` order, when the payment client succeeds with a
transaction id that `uuid.Parse` rejects, `PayOrder` returns
`InternalServerError` after one call to the payment client and leaves the map
as it was, so the order is stored as before; in a map reached from the empty
map that order has no transaction id and no payment method. -/
theorem payOrder_malformed_transaction {P : Type} [Zero P] [Add P] (lib : UuidLib)
    (paymentClient : PaymentClient) (orders : Orders P) (req : order_v1.PayOrderRequest)
    (orderUUID : UUID) (order : Order P) (paymentResp : paymentv1.PayOrderResponse)
    (horder : orders (lib.str orderUUID) = some order)
    (hstatus : order.Status = .PENDINGPAYMENT)
    (hpay : paymentClient
        { OrderUuid := lib.str orderUUID
          UserUuid := lib.str order.UserUUID
          PaymentMethod := toPaymentMethod req.PaymentMethod } = .ok paymentResp)
    (hparse : lib.parse paymentResp.TransactionUuid = none) :
    PayOrder lib paymentClient orders req orderUUID
        = ⟨.InternalServerError "Ошибка при обработке UUID транзакции", orders,
            [{ OrderUuid := lib.str orderUUID
               UserUuid := lib.str order.UserUUID
               PaymentMethod := toPaymentMethod req.PaymentMethod }]⟩
      ∧ (PayOrder lib paymentClient orders req orderUUID).orders (lib.str orderUUID)
        = some order
      ∧ (∀ calls : List (Call P), run lib calls = orders →
          order.TransactionUUID = none ∧ order.PaymentMethod.Set = false) := by
  have h : PayOrder lib paymentClient orders req orderUUID
      = ⟨.InternalServerError "Ошибка при обработке UUID транзакции", orders,
          [{ OrderUuid := lib.str orderUUID
             UserUuid := lib.str order.UserUUID
             PaymentMethod := toPaymentMethod req.PaymentMethod }]⟩ := by
    simp [PayOrder, horder, hstatus, hpay, hparse]
  refine ⟨h, ?_, ?_⟩
  · rw [h]
    exact horder
  · intro calls hrun
    exact run_not_paid lib calls (lib.str orderUUID) order (by rw [hrun]; exact horder)
      (by rw [hstatus]; decide)

/-- Witness for C19: the payment service answers "tx-1", which does not parse,
while order 2 is pending. -/
theorem payOrder_malformed_transaction_witness :
    PayOrder unaryUuid (fun _ => .ok ⟨"tx-1"⟩)
        (Function.update (emptyOrders Nat) "ff" (some (sampleOrder 2 .PENDINGPAYMENT)))
        ⟨.CARD⟩ ⟨2⟩
        = ⟨.InternalServerError "Ошибка при обработке UUID транзакции",
            Function.update (emptyOrders Nat) "ff" (some (sampleOrder 2 .PENDINGPAYMENT)),
            [{ OrderUuid := "ff", UserUuid := "f", PaymentMethod := .PAYMENT_METHOD_CARD }]⟩
      ∧ (PayOrder unaryUuid (fun _ => .ok ⟨"tx-1"⟩)
        (Function.update (emptyOrders Nat) "ff" (some (sampleOrder 2 .PENDINGPAYMENT)))
        ⟨.CARD⟩ ⟨2⟩).orders "ff" = some (sampleOrder 2 .PENDINGPAYMENT)
      ∧ (∀ calls : List (Call Nat), run unaryUuid calls
            = Function.update (emptyOrders Nat) "ff" (some (sampleOrder 2 .PENDINGPAYMENT)) →
          (sampleOrder 2 .PENDINGPAYMENT).TransactionUUID = none
            ∧ (sampleOrder 2 .PENDINGPAYMENT).PaymentMethod.Set = false) :=
  payOrder_malformed_transaction unaryUuid (fun _ => .ok ⟨"tx-1"⟩)
    (Function.update (emptyOrders Nat) "ff" (some (sampleOrder 2 .PENDINGPAYMENT)))
    ⟨.CARD⟩ ⟨2⟩ (sampleOrder 2 .PENDINGPAYMENT) ⟨"tx-1"⟩ (by decide) rfl rfl (by decide)

/-- C13: a nil filter matches every part, and for a filter that is set
`matchesFilter` returns `true` exactly when all five field conditions hold
together: for uuids, names, categories and manufacturer countries the list of
the filter is empty or contains the value of the part, and for tags the list
is empty or shares a tag with the part. The function returns nothing (nil
dereference) exactly when the uuid, name and category conditions hold, the
country list is not empty and the part has no manufacturer. -/
theorem matchesFilter_true_iff {P : Type} (part : inventoryv1.Part P) :
    matchesFilter part none = some true
      ∧ (∀ filter : inventoryv1.PartsFilter,
        matchesFilter part (some filter) = some true
          ↔ (filter.Uuids = [] ∨ part.Uuid ∈ filter.Uuids)
            ∧ (filter.Names = [] ∨ part.Name ∈ filter.Names)
            ∧ (filter.Categories = [] ∨ part.Category ∈ filter.Categories)
            ∧ (filter.ManufacturerCountries = []
              ∨ ∃ manufacturer, part.Manufacturer = some manufacturer
                ∧ manufacturer.Country ∈ filter.ManufacturerCountries)
            ∧ (filter.Tags = [] ∨ ∃ tag ∈ filter.Tags, tag ∈ part.Tags))
      ∧ (∀ filter : inventoryv1.PartsFilter,
        matchesFilter part (some filter) = none
          ↔ (filter.Uuids = [] ∨ part.Uuid ∈ filter.Uuids)
            ∧ (filter.Names = [] ∨ part.Name ∈ filter.Names)
            ∧ (filter.Categories = [] ∨ part.Category ∈ filter.Categories)
            ∧ filter.ManufacturerCountries ≠ []
            ∧ part.Manufacturer = none) := by
  refine ⟨rfl, ?_, ?_⟩
  · intro filter
    unfold matchesFilter
    simp only [field_guard_iff]
    by_cases hU : filter.Uuids = [] ∨ part.Uuid ∈ filter.Uuids
    · by_cases hN : filter.Names = [] ∨ part.Name ∈ filter.Names
      · by_cases hC : filter.Categories = [] ∨ part.Category ∈ filter.Categories
        · by_cases hM : filter.ManufacturerCountries = []
          · simp [hU, hN, hC, hM, matchesTags_eq_true_iff]
          · have hpos : filter.ManufacturerCountries.length > 0 := List.length_pos.mpr hM
            cases hman : part.Manufacturer with
            | none => simp [hU, hN, hC, hM, hpos]
            | some manufacturer =>
              by_cases hmem : manufacturer.Country ∈ filter.ManufacturerCountries
              · have hf := (found_beq_eq_false_iff manufacturer.Country
                  filter.ManufacturerCountries).not.mpr (not_not.mpr hmem)
                simp [hU, hN, hC, hM, hpos, hmem, hf, matchesTags_eq_true_iff]
              · have hf := (found_beq_eq_false_iff manufacturer.Country
                  filter.ManufacturerCountries).mpr hmem
                simp [hU, hN, hC, hM, hpos, hmem, hf]
        · simp [hU, hN, hC]
      · simp [hU, hN]
    · simp [hU]
  · intro filter
    unfold matchesFilter
    simp only [field_guard_iff]
    by_cases hU : filter.Uuids = [] ∨ part.Uuid ∈ filter.Uuids
    · by_cases hN : filter.Names = [] ∨ part.Name ∈ filter.Names
      · by_cases hC : filter.Categories = [] ∨ part.Category ∈ filter.Categories
        · by_cases hM : filter.ManufacturerCountries = []
          · simp [hU, hN, hC, hM]
          · have hpos : filter.ManufacturerCountries.length > 0 := List.length_pos.mpr hM
            cases hman : part.Manufacturer with
            | none => simp [hU, hN, hC, hM, hpos]
            | some manufacturer =>
              by_cases hf : found (fun country => manufacturer.Country == country)
                  filter.ManufacturerCountries = false
              · simp [hU, hN, hC, hM, hpos, hf]
              · simp [hU, hN, hC, hM, hpos, hf]
        · simp [hU, hN, hC]
      · simp [hU, hN]
    · simp [hU]

/-- C15: `GetOrder` does not write the map; it returns `NotFoundError` exactly
when no order is stored under the id; and for a stored order whose
`OrderUUID` string parses it returns the view with the parsed id and the
`UserUUID`, `PartUUIDs`, `TotalPrice`, `TransactionUUID`, `PaymentMethod` and
`Status` of the stored order. In every map reached from the empty map the
stored `OrderUUID` is the string of the requested id, so the view is returned
and carries the requested id. -/
theorem getOrder_lookup {P : Type} [Zero P] [Add P] (lib : UuidLib) (orders : Orders P)
    (orderUUID : UUID) :
    (Call.GetOrder orderUUID).apply lib orders = orders
      ∧ ((∃ message : String, GetOrder lib orders orderUUID = some (.NotFoundError message))
        ↔ orders (lib.str orderUUID) = none)
      ∧ (∀ (order : Order P) (parsed : UUID),
        orders (lib.str orderUUID) = some order →
        lib.parse order.OrderUUID = some parsed →
        GetOrder lib orders orderUUID
          = some (.OrderDto
              { OrderUUID := parsed
                UserUUID := order.UserUUID
                PartUuids := order.PartUUIDs
                TotalPrice := order.TotalPrice
                TransactionUUID := order.TransactionUUID
                PaymentMethod := order.PaymentMethod
                Status := order.Status }))
      ∧ (∀ (calls : List (Call P)) (order : Order P),
        run lib calls = orders →
        orders (lib.str orderUUID) = some order →
        order.OrderUUID = lib.str orderUUID
          ∧ GetOrder lib orders orderUUID
            = some (.OrderDto
                { OrderUUID := orderUUID
                  UserUUID := order.UserUUID
                  PartUuids := order.PartUUIDs
                  TotalPrice := order.TotalPrice
                  TransactionUUID := order.TransactionUUID
                  PaymentMethod := order.PaymentMethod
                  Status := order.Status })) := by
  refine ⟨rfl, ?_, ?_, ?_⟩
  · cases horder : orders (lib.str orderUUID) with
    | none => simp [GetOrder, horder]
    | some order =>
      cases hparse : lib.parse order.OrderUUID <;> simp [GetOrder, horder, hparse]
  · intro order parsed horder hparse
    simp [GetOrder, horder, hparse]
  · intro calls order hrun horder
    have hkey : order.OrderUUID = lib.str orderUUID :=
      run_keyed lib calls (lib.str orderUUID) order (by rw [hrun]; exact horder)
    refine ⟨hkey, ?_⟩
    simp [GetOrder, horder, hkey, lib.parse_str]

/-- Witness for C15: in `paidThenCancelled`, order 9 is not found and the paid
order 2 is returned. -/
theorem getOrder_lookup_witness :
    ((∃ message : String, GetOrder unaryUuid paidThenCancelled ⟨9⟩
        = some (.NotFoundError message)) ↔ paidThenCancelled (unaryUuid.str ⟨9⟩) = none)
      ∧ GetOrder unaryUuid paidThenCancelled ⟨2⟩
        = some (.OrderDto
            { OrderUUID := ⟨2⟩, UserUUID := ⟨1⟩, PartUuids := [], TotalPrice := 0
              TransactionUUID := some ⟨5⟩, PaymentMethod := { Value := .SBP, Set := true }
              Status := .PAID }) :=
  ⟨(getOrder_lookup unaryUuid paidThenCancelled ⟨9⟩).2.1,
    (getOrder_lookup unaryUuid paidThenCancelled ⟨2⟩).2.2.1
      (paidOrder (sampleOrder 2 .PENDINGPAYMENT) ⟨.SBP⟩ ⟨5⟩) ⟨2⟩ (by decide) (by decide)⟩

/-- C17: `PayOrder` and `CancelOrder` are called on the same `PENDING_PAYMENT`
order and the payment succeeds with a transaction id that parses. When
`CancelOrder` runs after the status check of `PayOrder` and before its payment
call and final write, `CancelOrder` returns `CancelOrderNoContent` and the order
is `CANCELLED`; then `PayOrder` returns the transaction id and the order is
`PAID`. -/
theorem payOrder_overwrites_cancel {P : Type} (lib : UuidLib) (paymentClient : PaymentClient)
    (orders : Orders P) (req : order_v1.PayOrderRequest) (orderUUID : UUID) (order : Order P)
    (paymentResp : paymentv1.PayOrderResponse) (transactionUUID : UUID)
    (horder : orders (lib.str orderUUID) = some order)
    (hstatus : order.Status = .PENDINGPAYMENT)
    (hpay : paymentClient
        { OrderUuid := lib.str orderUUID
          UserUuid := lib.str order.UserUUID
          PaymentMethod := toPaymentMethod req.PaymentMethod } = .ok paymentResp)
    (hparse : lib.parse paymentResp.TransactionUuid = some transactionUUID) :
    (System.exec lib
        { orders := orders
          tasks := [.payStart paymentClient req orderUUID, .cancelStart orderUUID] }
        [0, 1]).result 1 = some .CancelOrderNoContent
      ∧ (System.exec lib
        { orders := orders
          tasks := [.payStart paymentClient req orderUUID, .cancelStart orderUUID] }
        [0, 1]).orders (lib.str orderUUID) = some { order with Status := .CANCELLED }
      ∧ (System.exec lib
        { orders := orders
          tasks := [.payStart paymentClient req orderUUID, .cancelStart orderUUID] }
        [0, 1, 0, 0]).result 0 = some (.PayOrderResponse transactionUUID)
      ∧ (System.exec lib
        { orders := orders
          tasks := [.payStart paymentClient req orderUUID, .cancelStart orderUUID] }
        [0, 1, 0, 0]).result 1 = some .CancelOrderNoContent
      ∧ (System.exec lib
        { orders := orders
          tasks := [.payStart paymentClient req orderUUID, .cancelStart orderUUID] }
        [0, 1, 0, 0]).orders (lib.str orderUUID)
        = some { order with
            Status := .PAID
            TransactionUUID := some transactionUUID
            PaymentMethod := { Value := req.PaymentMethod, Set := true } } := by
  simp [System.exec, System.step, Task.step, System.result, CancelOrder, horder, hstatus, hpay,
    hparse, paidOrder]

/-- Witness for C17: the calls of `payAgainstCancel` on the freshly created
order 2. -/
theorem payOrder_overwrites_cancel_witness :
    (payAgainstCancel.exec unaryUuid [0, 1]).result 1 = some .CancelOrderNoContent
      ∧ (payAgainstCancel.exec unaryUuid [0, 1]).orders "ff"
        = some (sampleOrder 2 .CANCELLED)
      ∧ (payAgainstCancel.exec unaryUuid [0, 1, 0, 0]).result 0
        = some (.PayOrderResponse ⟨5⟩)
      ∧ (payAgainstCancel.exec unaryUuid [0, 1, 0, 0]).result 1 = some .CancelOrderNoContent
      ∧ (payAgainstCancel.exec unaryUuid [0, 1, 0, 0]).orders "ff"
        = some { sampleOrder 2 .PENDINGPAYMENT with
            Status := .PAID
            TransactionUUID := some ⟨5⟩
            PaymentMethod := { Value := .CARD, Set := true } } :=
  payOrder_overwrites_cancel unaryUuid (paymentServer.PayOrder unaryUuid ⟨5⟩)
    payAgainstCancel.orders ⟨.CARD⟩ ⟨2⟩ (sampleOrder 2 .PENDINGPAYMENT)
    ⟨unaryUuid.str ⟨5⟩⟩ ⟨5⟩ (by decide) rfl rfl (by decide)

/-- C18: against `ListParts` over a catalog whose parts have pairwise distinct
uuids, `CreateOrder` with a list of part ids in which an id occurs more than
once returns `BadRequestError` and leaves the map as it was, whether or not
every requested id is the uuid of a part. -/
theorem createOrder_repeated_part {P : Type} [Zero P] [Add P] (lib : UuidLib)
    (parts : List (inventoryv1.Part P)) (newUUID : UUID) (orders : Orders P)
    (req : order_v1.CreateOrderRequest)
    (hnodup : (parts.map (fun part => part.Uuid)).Nodup)
    (hrep : ¬ req.PartUuids.Nodup) :
    CreateOrder lib (inventoryOf parts) newUUID orders req
      = (.BadRequestError "Некоторые детали не найдены", orders) := by
  have hrep2 : ¬ (req.PartUuids.map lib.str).Nodup := fun h => hrep (List.Nodup.of_map _ h)
  have hlt := filter_length_lt_of_repeated (req.PartUuids.map lib.str) parts hnodup hrep2
  rw [List.length_map] at hlt
  unfold CreateOrder
  dsimp only
  rw [inventoryOf_uuids]
  dsimp only
  rw [if_pos (Nat.ne_of_lt hlt)]

/-- Witness for C18: the catalog holds parts "ff" and "fff" and the request
asks for "ff" twice. -/
theorem createOrder_repeated_part_witness :
    CreateOrder unaryUuid
        (inventoryOf [{ engine001 with Uuid := "ff" }, { fuel001 with Uuid := "fff" }]) ⟨7⟩
        paidThenCancelled { UserUUID := ⟨1⟩, PartUuids := [⟨2⟩, ⟨2⟩] }
      = (.BadRequestError "Некоторые детали не найдены", paidThenCancelled) :=
  createOrder_repeated_part unaryUuid
    [{ engine001 with Uuid := "ff" }, { fuel001 with Uuid := "fff" }] ⟨7⟩
    paidThenCancelled { UserUUID := ⟨1⟩, PartUuids := [⟨2⟩, ⟨2⟩] } (by decide) (by decide)

end RocketFactory
